import Mathlib

set_option maxRecDepth 16384

/-!
Shallow embedding of the AV Hub backend (src/backend/main.py, models.py,
schemas.py) and proofs about its aggregation, filtering, projection, CSV
export and CRUD behaviour.

Modelling conventions:
* SQLAlchemy rows become Lean structures whose fields follow the column
  list of `models.py` in declaration order; a nullable column becomes an
  `Option` field.
* The database table underlying an endpoint becomes an explicit
  `List` of records passed to the embedded function.
* SQLite `Date` / `DateTime` values are modelled by `PyDate` / `PyDateTime`
  records; `Float` columns (latitude / longitude) are modelled by `ℚ`,
  which is enough because the code only tests them for Python truthiness
  (None / 0.0 falsy) and never does float arithmetic on them.
* Python `Optional[str]` parameters keep Python truthiness: `None` and the
  empty string are falsy, every other string truthy.
* Endpoints that can raise (the filter branches of main.py that reference
  columns absent from `models.py`, e.g. `Policy.description`) are embedded
  in `Except String`; the error value models the `AttributeError` the
  attribute access raises when that branch is executed.
-/

/-- A calendar date as stored in a SQLAlchemy `Date` column (ISO `YYYY-MM-DD`). -/
structure PyDate where
  year : Nat
  month : Nat
  day : Nat
deriving DecidableEq

/-- A timestamp as stored in a SQLAlchemy `DateTime` column. -/
structure PyDateTime where
  year : Nat
  month : Nat
  day : Nat
  hour : Nat
  minute : Nat
  second : Nat
deriving DecidableEq

/-- Zero-pad a number to two digits, as Python `date.isoformat` does. -/
def pad2 (n : Nat) : String :=
  if n < 10 then "0" ++ toString n else toString n

/-- Zero-pad a number to four digits, as Python `date.isoformat` does. -/
def pad4 (n : Nat) : String :=
  if n < 10 then "000" ++ toString n
  else if n < 100 then "00" ++ toString n
  else if n < 1000 then "0" ++ toString n
  else toString n

/-- Python `date.isoformat()`: the ISO-8601 rendering `YYYY-MM-DD`. -/
def PyDate.isoformat (d : PyDate) : String :=
  pad4 d.year ++ "-" ++ pad2 d.month ++ "-" ++ pad2 d.day

/-- Python `datetime.isoformat()`: the ISO-8601 rendering `YYYY-MM-DDTHH:MM:SS`. -/
def PyDateTime.isoformat (d : PyDateTime) : String :=
  pad4 d.year ++ "-" ++ pad2 d.month ++ "-" ++ pad2 d.day ++ "T" ++
    pad2 d.hour ++ ":" ++ pad2 d.minute ++ ":" ++ pad2 d.second

/-- Numeric key of a date; for digit-bounded fields (month, day < 100) this
ordering agrees with SQLite's lexicographic ordering of ISO date text. -/
def PyDate.key (d : PyDate) : Nat :=
  d.year * 10000 + d.month * 100 + d.day

/-- Python truthiness of an `Optional[str]` value: `None` and `""` are falsy. -/
def strTruthy : Option String → Bool
  | none => false
  | some s => !s.isEmpty

/-- Python truthiness of an `Optional[float]` value: `None` and `0.0` are falsy. -/
def floatTruthy : Option ℚ → Bool
  | none => false
  | some q => q != 0

/-- Python `str.lower` over the ASCII alphabet of this API's data (status
keywords, search terms). -/
def pyLower (s : String) : String :=
  String.mk (s.data.map Char.toLower)

/-- SQL `col ILIKE '%pat%'` for a non-null text column: case-insensitive
substring containment (the search terms of this API are plain text; `%`/`_`
wildcards inside the term are not modelled). -/
def ilike (col : String) (pat : String) : Bool :=
  decide (List.IsInfix (pyLower pat).data (pyLower col).data)

/-- SQL `col ILIKE '%pat%'` for a nullable column: `NULL ILIKE x` is `NULL`,
which is falsy inside an `OR`. -/
def ilikeOpt (col : Option String) (pat : String) : Bool :=
  match col with
  | none => false
  | some s => ilike s pat

/-- The `if param: q = q.filter(pred)` idiom of every `_filter_*` helper in
main.py: a `None` or empty-string parameter leaves the query unrestricted. -/
def applyOptFilter {α : Type} (param : Option String) (pred : String → α → Bool)
    (l : List α) : List α :=
  match param with
  | none => l
  | some s => if s.isEmpty then l else l.filter (pred s)

/-- SQL `SELECT key, count(*) ... GROUP BY key`: one row per distinct key
value (SQL GROUP BY keeps a NULL key as its own group), counting the rows
with that key.  Row emission order is abstracted to first-occurrence order;
no claim depends on group order. -/
def groupCounts {α β : Type} [DecidableEq β] (key : α → β) (l : List α) :
    List (β × Nat) :=
  ((l.map key).dedup).map (fun b => (b, l.countP (fun x => decide (key x = b))))

/-- Total number of records covered by a grouped count. -/
def sumCounts {β : Type} (g : List (β × Nat)) : Nat :=
  (g.map Prod.snd).sum

/-- The value of one cell of a row dict produced by `_model_to_dict`. -/
inductive PyVal where
  | null : PyVal
  | str : String → PyVal
  | int : Nat → PyVal
  | float : ℚ → PyVal
  | bool : Bool → PyVal
deriving DecidableEq

/-- `_model_to_dict` on a nullable text column. -/
def optStr : Option String → PyVal
  | none => .null
  | some s => .str s

/-- `_model_to_dict` on a nullable `Date` column: a date value is replaced by
its `isoformat()` string (the `hasattr(val, "isoformat")` branch). -/
def optDate : Option PyDate → PyVal
  | none => .null
  | some d => .str d.isoformat

/-- `_model_to_dict` on a nullable `DateTime` column (the
`isinstance(val, datetime)` branch). -/
def optDateTime : Option PyDateTime → PyVal
  | none => .null
  | some d => .str d.isoformat

/-- `_model_to_dict` on a nullable `Float` column. -/
def optFloat : Option ℚ → PyVal
  | none => .null
  | some q => .float q

/-- `_model_to_dict` on a nullable `Boolean` column. -/
def optBool : Option Bool → PyVal
  | none => .null
  | some b => .bool b

/-- The `policies` table (models.py, class Policy), columns in declaration
order.  Columns without `nullable=False` are nullable and become `Option`. -/
structure Policy where
  id : Nat
  jurisdiction : String
  state_code : Option String
  policy_type : String
  title : String
  vehicle_class : Option String
  date_enacted : Option PyDate
  status : Option String
  summary : Option String
  source_url : Option String
  created_at : Option PyDateTime
  updated_at : Option PyDateTime
deriving DecidableEq

/-- The `deployments` table (models.py, class Deployment). -/
structure Deployment where
  id : Nat
  operator : String
  program_name : Option String
  city : String
  state : String
  state_code : Option String
  latitude : Option ℚ
  longitude : Option ℚ
  vehicle_type : Option String
  operational_domain : Option String
  status : Option String
  start_date : Option PyDate
  description : Option String
  source_url : Option String
  created_at : Option PyDateTime
  updated_at : Option PyDateTime
deriving DecidableEq

/-- The `funding_programs` table (models.py, class FundingProgram). -/
structure FundingProgram where
  id : Nat
  program_name : String
  agency : String
  funding_type : Option String
  total_funding : Option String
  award_range : Option String
  application_deadline : Option PyDate
  date_enacted : Option PyDate
  date_closed : Option PyDate
  eligibility : Option String
  description : Option String
  av_relevance : Option String
  status : Option String
  source_url : Option String
  created_at : Option PyDateTime
  updated_at : Option PyDateTime
deriving DecidableEq

/-- The `safety_incidents` table (models.py, class SafetyIncident).  The
`date` column is declared `nullable=False`, but main.py itself guards for a
null date in two places (`i.date.isoformat() if i.date else None`, and the
`int(r[0]) if r[0] else None` rendering of the by-year grouping), so the
embedding keeps the column optional; the NOT NULL constraint is expressed as
a hypothesis where a statement needs it. -/
structure SafetyIncident where
  id : Nat
  report_id : Option String
  date : Option PyDate
  manufacturer : String
  vehicle_model : Option String
  city : Option String
  state : Option String
  state_code : Option String
  latitude : Option ℚ
  longitude : Option ℚ
  incident_type : Option String
  severity : Option String
  ads_engaged : Option Bool
  description : Option String
  source : Option String
  source_url : Option String
  created_at : Option PyDateTime
  updated_at : Option PyDateTime
deriving DecidableEq

/-- The `resources` table (models.py, class Resource). -/
structure Resource where
  id : Nat
  title : String
  author_org : String
  resource_type : Option String
  publication_date : Option PyDate
  tags : Option String
  topic_area : Option String
  summary : Option String
  url : Option String
  created_at : Option PyDateTime
  updated_at : Option PyDateTime
deriving DecidableEq

/-- The `curbside_regulations` table (models.py, class CurbsideRegulation). -/
structure CurbsideRegulation where
  id : Nat
  city : String
  state : String
  state_code : Option String
  latitude : Option ℚ
  longitude : Option ℚ
  regulation_type : Option String
  description : Option String
  applies_to : Option String
  date_adopted : Option PyDate
  status : Option String
  source_url : Option String
  created_at : Option PyDateTime
  updated_at : Option PyDateTime
deriving DecidableEq

/-- The `news_articles` table (models.py, class NewsArticle); the
`publication_date` column is `nullable=False` and the code never guards it,
so it is embedded as a plain field. -/
structure NewsArticle where
  id : Nat
  headline : String
  source_org : String
  publication_date : PyDate
  summary : Option String
  url : Option String
  category : Option String
  created_at : Option PyDateTime
  updated_at : Option PyDateTime
deriving DecidableEq

/-- The `PolicyCreate` request body (schemas.py): required fields are plain,
optional fields are `Option`. -/
structure PolicyCreate where
  jurisdiction : String
  state_code : Option String
  policy_type : String
  title : String
  vehicle_class : Option String
  date_enacted : Option PyDate
  status : String
  summary : Option String
  source_url : Option String
deriving DecidableEq

/-- The `DeploymentCreate` request body (schemas.py). -/
structure DeploymentCreate where
  operator : String
  program_name : Option String
  city : String
  state : String
  state_code : Option String
  latitude : Option ℚ
  longitude : Option ℚ
  vehicle_type : Option String
  operational_domain : Option String
  status : String
  start_date : Option PyDate
  description : Option String
  source_url : Option String
deriving DecidableEq

/-- First code points of the 65 runs of ten consecutive non-ASCII Unicode
decimal digits (category Nd, Unicode 14.0): each run holds the digits 0-9 of
one script.  Python's regex `\d` matches exactly these together with the
ASCII digits, and Python `float()` converts each such character to its
decimal value. -/
def ndBlockStarts : List Nat :=
  [1632, 1776, 1984, 2406, 2534, 2662, 2790, 2918, 3046, 3174,
   3302, 3430, 3558, 3664, 3792, 3872, 4160, 4240, 6112, 6160,
   6470, 6608, 6784, 6800, 6992, 7088, 7232, 7248, 42528, 43216,
   43264, 43472, 43504, 43600, 44016, 65296, 66720, 68912, 69734, 69872,
   69942, 70096, 70384, 70736, 70864, 71248, 71360, 71472, 71904, 72016,
   72784, 73040, 73120, 92768, 92864, 93008, 120782, 120792, 120802, 120812,
   120822, 123200, 123632, 125264, 130032]

/-- Decimal value of a character under Python: the ASCII digits and every
other Unicode decimal digit (what `\d` keeps and `float()` converts);
`none` for a non-digit. -/
def pyDigitVal (c : Char) : Option Nat :=
  if c.isDigit then some (c.toNat - 48)
  else
    match ndBlockStarts.find?
        (fun s => decide (s ≤ c.toNat) && decide (c.toNat < s + 10)) with
    | none => none
    | some s => some (c.toNat - s)

/-- Spec-side decimal value ("strip every character that is not an ASCII
digit or decimal point"): ASCII digits only. -/
def asciiDigitVal (c : Char) : Option Nat :=
  if c.isDigit then some (c.toNat - 48) else none

/-- The shape of `re.sub(r"[^\d.]", "", s)`: keep the characters with a
digit value, and dots, parametrised by the digit-value function. -/
def stripToDigitsDot (dval : Char → Option Nat) (s : String) : String :=
  String.mk (s.data.filter (fun c => (dval c).isSome || c == '.'))

/-- Value of a list of digit characters under a digit-value function. -/
def digitsVal (dval : Char → Option Nat) (cs : List Char) : Nat :=
  cs.foldl (fun n c => 10 * n + (dval c).getD 0) 0

/-- Python `float()` restricted to strings of digits and dots (all that can
reach it after the strip): it succeeds exactly when the string consists of
digits and at most one dot and contains at least one digit, and then denotes
the usual decimal value, each digit contributing its decimal value;
otherwise it raises `ValueError`, modelled as `none`.  The value is kept as
an exact rational. -/
def floatOfDigits (dval : Char → Option Nat) (s : String) : Option ℚ :=
  if s.data.all (fun c => (dval c).isSome || c == '.') && s.data.count '.' ≤ 1 &&
      s.data.any (fun c => (dval c).isSome) then
    some ((digitsVal dval (s.data.takeWhile (fun c => c ≠ '.')) : ℚ) +
      (digitsVal dval ((s.data.dropWhile (fun c => c ≠ '.')).drop 1) : ℚ) /
        (10 : ℚ) ^ ((s.data.dropWhile (fun c => c ≠ '.')).drop 1).length)
  else none

/-- main.py `_parse_funding_amount`, step 1: `re.sub(r"[^\d.]", "", s)` —
`\d` keeps every Unicode decimal digit, not only the ASCII ones. -/
def stripNonDigitDot (s : String) : String :=
  stripToDigitsDot pyDigitVal s

/-- Python `float()` applied to the stripped string (Unicode digits
included). -/
def pyFloatOfCleaned (s : String) : Option ℚ :=
  floatOfDigits pyDigitVal s

/-- main.py `_parse_funding_amount`: `if not amount_str: return 0.0`, then
strip, then `float(...)` inside `try/except` returning 0.0 on failure. -/
def parse_funding_amount (amount_str : Option String) : ℚ :=
  match amount_str with
  | none => 0
  | some s =>
    if s.isEmpty then 0
    else (pyFloatOfCleaned (stripNonDigitDot s)).getD 0

/-- Modelled from the spec's words (claim C3's algorithm), for comparison
with the source parser: strip every character that is not an ASCII digit or
decimal point, then parse the remainder; null/empty input and failed parses
yield 0. -/
def spec_parse_ascii (amount_str : Option String) : ℚ :=
  match amount_str with
  | none => 0
  | some s =>
    if s.isEmpty then 0
    else (floatOfDigits asciiDigitVal (stripToDigitsDot asciiDigitVal s)).getD 0

/-- main.py `get_dashboard`: `db.query(Policy.state_code).distinct().count()`
compiles to `SELECT count(*) FROM (SELECT DISTINCT state_code FROM policies)`;
SQL `DISTINCT` collapses all NULLs into a single row and the outer `count(*)`
counts that row as well, so `dedup` runs over the raw `Option` values. -/
def states_with_legislation (l : List Policy) : Nat :=
  ((l.map Policy.state_code).dedup).length

/-- main.py `get_dashboard`: sum of parsed funding amounts over the programs
whose `total_funding` is truthy. -/
def total_funding_amount (l : List FundingProgram) : ℚ :=
  ((l.filter (fun fp => strTruthy fp.total_funding)).map
    (fun fp => parse_funding_amount fp.total_funding)).sum

/-- main.py `_filter_policies`.  The three equality filters use columns that
exist; the search branch evaluates `Policy.description`, an attribute the
`Policy` model does not define, so executing that branch raises
`AttributeError` — embedded as the error value. -/
def filter_policies (status jurisdiction state_code search : Option String)
    (l : List Policy) : Except String (List Policy) :=
  let l1 := applyOptFilter status (fun v p => p.status == some v) l
  let l2 := applyOptFilter jurisdiction (fun v p => p.jurisdiction == v) l1
  let l3 := applyOptFilter state_code (fun v p => p.state_code == some v) l2
  if strTruthy search then
    .error "AttributeError: type object Policy has no attribute description"
  else .ok l3

/-- main.py `_filter_deployments` (all referenced columns exist). -/
def filter_deployments (status operator city state search : Option String)
    (l : List Deployment) : List Deployment :=
  let l1 := applyOptFilter status (fun v d => d.status == some v) l
  let l2 := applyOptFilter operator (fun v d => d.operator == v) l1
  let l3 := applyOptFilter city (fun v d => d.city == v) l2
  let l4 := applyOptFilter state (fun v d => d.state == v) l3
  applyOptFilter search
    (fun v d => ilike d.operator v || ilike d.city v || ilike d.state v ||
      ilikeOpt d.description v) l4

/-- main.py `_filter_funding` (all referenced columns exist). -/
def filter_funding (status agency funding_type search : Option String)
    (l : List FundingProgram) : List FundingProgram :=
  let l1 := applyOptFilter status (fun v f => f.status == some v) l
  let l2 := applyOptFilter agency (fun v f => f.agency == v) l1
  let l3 := applyOptFilter funding_type (fun v f => f.funding_type == some v) l2
  applyOptFilter search
    (fun v f => ilike f.program_name v || ilike f.agency v ||
      ilikeOpt f.description v) l3

/-- main.py `_filter_safety`.  The four equality filters use existing
columns; the search branch evaluates `SafetyIncident.title`, which the model
does not define, raising `AttributeError`. -/
def filter_safety (severity manufacturer incident_type state search : Option String)
    (l : List SafetyIncident) : Except String (List SafetyIncident) :=
  let l1 := applyOptFilter severity (fun v i => i.severity == some v) l
  let l2 := applyOptFilter manufacturer (fun v i => i.manufacturer == v) l1
  let l3 := applyOptFilter incident_type (fun v i => i.incident_type == some v) l2
  let l4 := applyOptFilter state (fun v i => i.state == some v) l3
  if strTruthy search then
    .error "AttributeError: type object SafetyIncident has no attribute title"
  else .ok l4

/-- main.py `_filter_resources`.  `Resource.category` (equality filter) and
`Resource.description` (second disjunct of the search) do not exist on the
model, so those branches raise `AttributeError`. -/
def filter_resources (resource_type category search : Option String)
    (l : List Resource) : Except String (List Resource) :=
  let l1 := applyOptFilter resource_type (fun v r => r.resource_type == some v) l
  if strTruthy category then
    .error "AttributeError: type object Resource has no attribute category"
  else if strTruthy search then
    .error "AttributeError: type object Resource has no attribute description"
  else .ok l1

/-- main.py `_filter_curbside`.  `CurbsideRegulation.zone_type` (equality
filter) and `CurbsideRegulation.title` (first disjunct of the search) do not
exist on the model, so those branches raise `AttributeError`. -/
def filter_curbside (status city state zone_type search : Option String)
    (l : List CurbsideRegulation) : Except String (List CurbsideRegulation) :=
  let l1 := applyOptFilter status (fun v r => r.status == some v) l
  let l2 := applyOptFilter city (fun v r => r.city == v) l1
  let l3 := applyOptFilter state (fun v r => r.state == v) l2
  if strTruthy zone_type then
    .error "AttributeError: type object CurbsideRegulation has no attribute zone_type"
  else if strTruthy search then
    .error "AttributeError: type object CurbsideRegulation has no attribute title"
  else .ok l3

/-- Descending publication-date order used by `_filter_news`'s
`order_by(NewsArticle.publication_date.desc())`. -/
def newsDateGe (a b : NewsArticle) : Prop :=
  b.publication_date.key ≤ a.publication_date.key

instance : DecidableRel newsDateGe := fun a b =>
  inferInstanceAs (Decidable (b.publication_date.key ≤ a.publication_date.key))

instance : IsTotal NewsArticle newsDateGe :=
  ⟨fun a b => Nat.le_total b.publication_date.key a.publication_date.key⟩

instance : IsTrans NewsArticle newsDateGe :=
  ⟨fun _ _ _ h1 h2 => Nat.le_trans h2 h1⟩

/-- The row order produced by `ORDER BY publication_date DESC`; SQL leaves
the relative order of equal dates unspecified, so any sort realising the
descending order is a faithful model. -/
def sortNewsByDateDesc (l : List NewsArticle) : List NewsArticle :=
  l.insertionSort newsDateGe

/-- main.py `_filter_news`: the query is date-ordered first, then the
category and search filters restrict it (all referenced columns exist). -/
def filter_news (category search : Option String) (l : List NewsArticle) :
    List NewsArticle :=
  let l0 := sortNewsByDateDesc l
  let l1 := applyOptFilter category (fun v a => a.category == some v) l0
  applyOptFilter search (fun v a => ilike a.headline v || ilikeOpt a.summary v) l1

/-- Row shape returned by main.py `deployments_map_locations`. -/
structure DeploymentLoc where
  id : Nat
  operator : String
  city : String
  state : String
  latitude : Option ℚ
  longitude : Option ℚ
  status : Option String
  vehicle_type : Option String
deriving DecidableEq

/-- The projection main.py applies to each deployment (lines 374-383). -/
def deploymentLocOf (d : Deployment) : DeploymentLoc :=
  { id := d.id, operator := d.operator, city := d.city, state := d.state,
    latitude := d.latitude, longitude := d.longitude, status := d.status,
    vehicle_type := d.vehicle_type }

/-- main.py `deployments_map_locations`: the list comprehension has NO
filtering clause — every deployment row is projected, whatever its
coordinates. -/
def deployments_map_locations (l : List Deployment) : List DeploymentLoc :=
  l.map deploymentLocOf

/-- Row shape returned by main.py `safety_map_locations` (note `operator`
is populated from `manufacturer`, and `date` is the ISO string or null). -/
structure SafetyLoc where
  id : Nat
  operator : String
  city : Option String
  state : Option String
  latitude : Option ℚ
  longitude : Option ℚ
  incident_type : Option String
  date : Option String
deriving DecidableEq

/-- The projection main.py applies to each safety incident (lines 659-668). -/
def safetyLocOf (i : SafetyIncident) : SafetyLoc :=
  { id := i.id, operator := i.manufacturer, city := i.city, state := i.state,
    latitude := i.latitude, longitude := i.longitude,
    incident_type := i.incident_type, date := i.date.map PyDate.isoformat }

/-- main.py `safety_map_locations`: `if i.latitude and i.longitude` keeps a
row only when both coordinates are truthy (non-null and non-zero). -/
def safety_map_locations (l : List SafetyIncident) : List SafetyLoc :=
  (l.filter (fun i => floatTruthy i.latitude && floatTruthy i.longitude)).map safetyLocOf

/-- Row shape returned by main.py `curbside_map_locations`. -/
structure CurbsideLoc where
  id : Nat
  city : String
  state : String
  latitude : Option ℚ
  longitude : Option ℚ
  regulation_type : Option String
  status : Option String
deriving DecidableEq

/-- The projection main.py applies to each curbside regulation (lines 886-895). -/
def curbsideLocOf (r : CurbsideRegulation) : CurbsideLoc :=
  { id := r.id, city := r.city, state := r.state, latitude := r.latitude,
    longitude := r.longitude, regulation_type := r.regulation_type,
    status := r.status }

/-- main.py `curbside_map_locations`: filtered by `if r.latitude and
r.longitude`, like the safety projection. -/
def curbside_map_locations (l : List CurbsideRegulation) : List CurbsideLoc :=
  (l.filter (fun r => floatTruthy r.latitude && floatTruthy r.longitude)).map curbsideLocOf

/-- main.py `safety_stats_by_manufacturer`: `GROUP BY manufacturer` with a
count per group. -/
def safety_stats_by_manufacturer (l : List SafetyIncident) : List (String × Nat) :=
  groupCounts SafetyIncident.manufacturer l

/-- main.py `safety_stats_by_type`. -/
def safety_stats_by_type (l : List SafetyIncident) : List (Option String × Nat) :=
  groupCounts SafetyIncident.incident_type l

/-- main.py `safety_stats_by_severity`. -/
def safety_stats_by_severity (l : List SafetyIncident) : List (Option String × Nat) :=
  groupCounts SafetyIncident.severity l

/-- `extract("year", date)` on SQLite: `CAST(STRFTIME('%Y', date) AS INTEGER)`,
which is NULL for a NULL date. -/
def extractYear (d : Option PyDate) : Option Nat :=
  d.map PyDate.year

/-- The `int(r[0]) if r[0] else None` rendering main.py applies to the year
key of each group (Python truthiness maps both SQL NULL and 0 to None). -/
def pyYearRender : Option Nat → Option Nat
  | none => none
  | some y => if y = 0 then none else some y

/-- main.py `safety_stats_by_year`: `GROUP BY` the extracted year (a NULL
date yields a NULL year key, which GROUP BY keeps as its own group), then
render every group's key as `{"year": int(r[0]) if r[0] else None, ...}`. -/
def safety_stats_by_year (l : List SafetyIncident) : List (Option Nat × Nat) :=
  (groupCounts (fun i => extractYear i.date) l).map (fun g => (pyYearRender g.1, g.2))

/-- Byte-wise (SQLite BINARY collation) strict order on character lists,
used to order status values. -/
def charListLt : List Char → List Char → Bool
  | [], [] => false
  | [], _ :: _ => true
  | _ :: _, [] => false
  | a :: as, b :: bs =>
    if a.toNat < b.toNat then true
    else if b.toNat < a.toNat then false
    else charListLt as bs

/-- BINARY-collation order on nullable status values: NULL before every
string, strings byte-ascending. -/
def statusLt : Option String → Option String → Bool
  | none, none => false
  | none, some _ => true
  | some _, none => false
  | some a, some b => charListLt a.data b.data

/-- One step of the maximal-count selection: keep the next group when it has
strictly more rows, or equally many rows and a greater status value. -/
def tsStep (acc : Option (Option String × Nat)) (g : Option String × Nat) :
    Option (Option String × Nat) :=
  match acc with
  | none => some g
  | some b => if g.2 > b.2 || (g.2 == b.2 && statusLt b.1 g.1) then some g else some b

/-- The group selected by `GROUP BY status ORDER BY count(id) DESC` +
`.first()`: a group of maximal count.  SQL leaves the relative order of tied
counts unspecified; observed SQLite behaviour on these queries (both
insertion orders, with the schema's indexes) resolves a tie to the greatest
status value — the `ORDER BY count DESC` re-sort reverses the ascending
`GROUP BY` emission — and the embedding adopts exactly that rule. -/
def topStatusGroup (gs : List (Option String × Nat)) : Option (Option String × Nat) :=
  gs.foldl tsStep none

/-- main.py `policies_map_states` classification: `if top_status and
top_status.lower() in ("enacted", "active", "signed") ...` (statuses are
ASCII keywords, so Python `str.lower` agrees with `String.toLower`). -/
def classify_policy_status (top_status : Option String) : String :=
  if strTruthy top_status &&
      ["enacted", "active", "signed"].contains (pyLower (top_status.getD "")) then
    "active"
  else if strTruthy top_status &&
      ["pending", "proposed", "introduced"].contains (pyLower (top_status.getD "")) then
    "under_consideration"
  else "none"

/-- Row shape returned by main.py `policies_map_states`. -/
structure StateRollup where
  state_code : Option String
  count : Nat
  status : Option String
  policy_status : String
deriving DecidableEq

/-- main.py `policies_map_states`: one output row per `GROUP BY state_code`
group (NULL is its own group); for each, the most frequent status of that
state's policies and its three-bucket classification.  SQLAlchemy compiles
`Policy.state_code == state_code` with a None value to `state_code IS NULL`,
which is exactly `Option` equality. -/
def topStatusFor (l : List Policy) (sc : Option String) : Option String :=
  match topStatusGroup (groupCounts Policy.status
      (l.filter (fun p => p.state_code == sc))) with
  | none => none
  | some t => t.1

/-- One output row of `policies_map_states` for one state-code group. -/
def stateRollupOf (l : List Policy) (g : Option String × Nat) : StateRollup :=
  { state_code := g.1, count := g.2, status := topStatusFor l g.1,
    policy_status := classify_policy_status (topStatusFor l g.1) }

def policies_map_states (l : List Policy) : List StateRollup :=
  (groupCounts Policy.state_code l).map (stateRollupOf l)

/-- Does a CSV cell need quoting under the csv module's QUOTE_MINIMAL policy? -/
def csvNeedsQuote (s : String) : Bool :=
  s.data.any (fun c => c == ',' || c == '"' || c == '\r' || c == '\n')

/-- Double every quote character, as the csv module does inside a quoted cell. -/
def csvEscape (s : String) : String :=
  String.mk (s.data.foldr (fun c acc => if c == '"' then '"' :: '"' :: acc else c :: acc) [])

/-- One CSV cell under QUOTE_MINIMAL. -/
def csvCell (s : String) : String :=
  if csvNeedsQuote s then "\"" ++ csvEscape s ++ "\"" else s

/-- One CSV record line without its terminator. -/
def csvLine (cells : List String) : String :=
  String.intercalate "," cells

/-- The text a csv writer produces for one cell value: `None` becomes the
empty cell, strings pass through, other values are stringified (`toString`
on the rational abstracts Python's float repr; no claim depends on float
cells). -/
def pyValCell : PyVal → String
  | .null => ""
  | .str s => s
  | .int n => toString n
  | .float q => toString q
  | .bool b => if b then "True" else "False"

/-- main.py `_rows_to_csv`: an empty row list yields an empty body (no
header); otherwise `csv.DictWriter(output, fieldnames=rows[0].keys())`
writes the header row then one record line per row, each line terminated by
CRLF, with QUOTE_MINIMAL quoting.  Every row dict of this API is produced by
the same `_model_to_dict`, so all rows share the first row's key order. -/
def rowsToCsv (rows : List (List (String × PyVal))) : String :=
  match rows with
  | [] => ""
  | r0 :: _ =>
    csvLine ((r0.map Prod.fst).map csvCell) ++ "\r\n" ++
      String.join (rows.map (fun r =>
        csvLine ((r.map (fun kv => pyValCell kv.2)).map csvCell) ++ "\r\n"))

/-- main.py `_model_to_dict` applied to a `Policy` row: one key per column
of the `policies` table, in declaration order, dates rendered by isoformat. -/
def Policy.toDict (p : Policy) : List (String × PyVal) :=
  [("id", .int p.id),
   ("jurisdiction", .str p.jurisdiction),
   ("state_code", optStr p.state_code),
   ("policy_type", .str p.policy_type),
   ("title", .str p.title),
   ("vehicle_class", optStr p.vehicle_class),
   ("date_enacted", optDate p.date_enacted),
   ("status", optStr p.status),
   ("summary", optStr p.summary),
   ("source_url", optStr p.source_url),
   ("created_at", optDateTime p.created_at),
   ("updated_at", optDateTime p.updated_at)]

/-- main.py `_model_to_dict` applied to a `Deployment` row. -/
def Deployment.toDict (d : Deployment) : List (String × PyVal) :=
  [("id", .int d.id),
   ("operator", .str d.operator),
   ("program_name", optStr d.program_name),
   ("city", .str d.city),
   ("state", .str d.state),
   ("state_code", optStr d.state_code),
   ("latitude", optFloat d.latitude),
   ("longitude", optFloat d.longitude),
   ("vehicle_type", optStr d.vehicle_type),
   ("operational_domain", optStr d.operational_domain),
   ("status", optStr d.status),
   ("start_date", optDate d.start_date),
   ("description", optStr d.description),
   ("source_url", optStr d.source_url),
   ("created_at", optDateTime d.created_at),
   ("updated_at", optDateTime d.updated_at)]

/-- main.py `_model_to_dict` applied to a `FundingProgram` row. -/
def FundingProgram.toDict (f : FundingProgram) : List (String × PyVal) :=
  [("id", .int f.id),
   ("program_name", .str f.program_name),
   ("agency", .str f.agency),
   ("funding_type", optStr f.funding_type),
   ("total_funding", optStr f.total_funding),
   ("award_range", optStr f.award_range),
   ("application_deadline", optDate f.application_deadline),
   ("date_enacted", optDate f.date_enacted),
   ("date_closed", optDate f.date_closed),
   ("eligibility", optStr f.eligibility),
   ("description", optStr f.description),
   ("av_relevance", optStr f.av_relevance),
   ("status", optStr f.status),
   ("source_url", optStr f.source_url),
   ("created_at", optDateTime f.created_at),
   ("updated_at", optDateTime f.updated_at)]

/-- main.py `_model_to_dict` applied to a `SafetyIncident` row. -/
def SafetyIncident.toDict (i : SafetyIncident) : List (String × PyVal) :=
  [("id", .int i.id),
   ("report_id", optStr i.report_id),
   ("date", optDate i.date),
   ("manufacturer", .str i.manufacturer),
   ("vehicle_model", optStr i.vehicle_model),
   ("city", optStr i.city),
   ("state", optStr i.state),
   ("state_code", optStr i.state_code),
   ("latitude", optFloat i.latitude),
   ("longitude", optFloat i.longitude),
   ("incident_type", optStr i.incident_type),
   ("severity", optStr i.severity),
   ("ads_engaged", optBool i.ads_engaged),
   ("description", optStr i.description),
   ("source", optStr i.source),
   ("source_url", optStr i.source_url),
   ("created_at", optDateTime i.created_at),
   ("updated_at", optDateTime i.updated_at)]

/-- main.py `_model_to_dict` applied to a `Resource` row. -/
def Resource.toDict (r : Resource) : List (String × PyVal) :=
  [("id", .int r.id),
   ("title", .str r.title),
   ("author_org", .str r.author_org),
   ("resource_type", optStr r.resource_type),
   ("publication_date", optDate r.publication_date),
   ("tags", optStr r.tags),
   ("topic_area", optStr r.topic_area),
   ("summary", optStr r.summary),
   ("url", optStr r.url),
   ("created_at", optDateTime r.created_at),
   ("updated_at", optDateTime r.updated_at)]

/-- main.py `_model_to_dict` applied to a `CurbsideRegulation` row. -/
def CurbsideRegulation.toDict (r : CurbsideRegulation) : List (String × PyVal) :=
  [("id", .int r.id),
   ("city", .str r.city),
   ("state", .str r.state),
   ("state_code", optStr r.state_code),
   ("latitude", optFloat r.latitude),
   ("longitude", optFloat r.longitude),
   ("regulation_type", optStr r.regulation_type),
   ("description", optStr r.description),
   ("applies_to", optStr r.applies_to),
   ("date_adopted", optDate r.date_adopted),
   ("status", optStr r.status),
   ("source_url", optStr r.source_url),
   ("created_at", optDateTime r.created_at),
   ("updated_at", optDateTime r.updated_at)]

/-- main.py `_model_to_dict` applied to a `NewsArticle` row. -/
def NewsArticle.toDict (a : NewsArticle) : List (String × PyVal) :=
  [("id", .int a.id),
   ("headline", .str a.headline),
   ("source_org", .str a.source_org),
   ("publication_date", optDate (some a.publication_date)),
   ("summary", optStr a.summary),
   ("url", optStr a.url),
   ("category", optStr a.category),
   ("created_at", optDateTime a.created_at),
   ("updated_at", optDateTime a.updated_at)]

/-- The CSV serialisation of a filtered policy record set
(`export_policies_csv` after `_filter_policies`). -/
def export_policies_rows (l : List Policy) : String :=
  rowsToCsv (l.map Policy.toDict)

/-- The CSV serialisation of a filtered deployment record set. -/
def export_deployments_rows (l : List Deployment) : String :=
  rowsToCsv (l.map Deployment.toDict)

/-- The CSV serialisation of a filtered funding-program record set. -/
def export_funding_rows (l : List FundingProgram) : String :=
  rowsToCsv (l.map FundingProgram.toDict)

/-- The CSV serialisation of a filtered safety-incident record set. -/
def export_safety_rows (l : List SafetyIncident) : String :=
  rowsToCsv (l.map SafetyIncident.toDict)

/-- The CSV serialisation of a filtered resource record set. -/
def export_resources_rows (l : List Resource) : String :=
  rowsToCsv (l.map Resource.toDict)

/-- The CSV serialisation of a filtered curbside-regulation record set. -/
def export_curbside_rows (l : List CurbsideRegulation) : String :=
  rowsToCsv (l.map CurbsideRegulation.toDict)

/-- The CSV serialisation of a filtered news record set (`export_news_csv`
after `_filter_news`). -/
def export_news_rows (l : List NewsArticle) : String :=
  rowsToCsv (l.map NewsArticle.toDict)

/-- Replace the first record satisfying a predicate (the in-place `setattr`
mutation of the row returned by `query(...).first()`). -/
def replaceFirst {α : Type} (l : List α) (pred : α → Bool) (a : α) : List α :=
  match l with
  | [] => []
  | x :: t => if pred x then a :: t else x :: replaceFirst t pred a

/-- The full-replacement update of `update_policy`: every key of
`PolicyCreate.dict()` is set onto the stored row. -/
def applyPolicyUpdate (p : Policy) (d : PolicyCreate) : Policy :=
  { p with
    jurisdiction := d.jurisdiction
    state_code := d.state_code
    policy_type := d.policy_type
    title := d.title
    vehicle_class := d.vehicle_class
    date_enacted := d.date_enacted
    status := some d.status
    summary := d.summary
    source_url := d.source_url }

/-- main.py `get_policy`: the first row with the requested id, or a 404
`HTTPException` ("Policy not found"), embedded as an error value. -/
def get_policy (l : List Policy) (pid : Nat) : Except String Policy :=
  match l.find? (fun p => p.id == pid) with
  | none => .error "Policy not found"
  | some p => .ok p

/-- main.py `update_policy`: 404 if the id is absent (store untouched);
otherwise every submitted field is set onto the found row and committed.
Returns the response together with the resulting store. -/
def update_policy (l : List Policy) (pid : Nat) (d : PolicyCreate) :
    Except String Policy × List Policy :=
  match l.find? (fun p => p.id == pid) with
  | none => (.error "Policy not found", l)
  | some p =>
    let p2 := applyPolicyUpdate p d
    (.ok p2, replaceFirst l (fun q => q.id == pid) p2)

/-- main.py `delete_policy`: 404 if the id is absent (store untouched);
otherwise the found row is deleted. -/
def delete_policy (l : List Policy) (pid : Nat) :
    Except String Unit × List Policy :=
  match l.find? (fun p => p.id == pid) with
  | none => (.error "Policy not found", l)
  | some _ => (.ok (), l.eraseP (fun p => p.id == pid))

/-- The full-replacement update of `update_deployment`. -/
def applyDeploymentUpdate (p : Deployment) (d : DeploymentCreate) : Deployment :=
  { p with
    operator := d.operator
    program_name := d.program_name
    city := d.city
    state := d.state
    state_code := d.state_code
    latitude := d.latitude
    longitude := d.longitude
    vehicle_type := d.vehicle_type
    operational_domain := d.operational_domain
    status := some d.status
    start_date := d.start_date
    description := d.description
    source_url := d.source_url }

/-- main.py `get_deployment` (the per-kind CRUD handlers are textually
identical up to entity names). -/
def get_deployment (l : List Deployment) (did : Nat) : Except String Deployment :=
  match l.find? (fun p => p.id == did) with
  | none => .error "Deployment not found"
  | some p => .ok p

/-- main.py `update_deployment`. -/
def update_deployment (l : List Deployment) (did : Nat) (d : DeploymentCreate) :
    Except String Deployment × List Deployment :=
  match l.find? (fun p => p.id == did) with
  | none => (.error "Deployment not found", l)
  | some p =>
    let p2 := applyDeploymentUpdate p d
    (.ok p2, replaceFirst l (fun q => q.id == did) p2)

/-- main.py `delete_deployment`. -/
def delete_deployment (l : List Deployment) (did : Nat) :
    Except String Unit × List Deployment :=
  match l.find? (fun p => p.id == did) with
  | none => (.error "Deployment not found", l)
  | some _ => (.ok (), l.eraseP (fun p => p.id == did))

/-- Characters of a CSV response up to (excluding) the first CR: the header
row of a non-empty export, used to state header-shape properties. -/
def firstLineChars (s : String) : List Char :=
  s.data.takeWhile (fun c => c != '\r')

/-- Spec-side definition, for comparison with `states_with_legislation`
(spec section 4: "distinct count of non-null jurisdiction state codes
across Policy records"). -/
def distinctNonNullStateCodes (l : List Policy) : Nat :=
  ((l.filterMap Policy.state_code).dedup).length

/-- Spec-side definition for the by-year grouping comparison: the number of
records with a null date. -/
def nullDateCount (l : List SafetyIncident) : Nat :=
  l.countP (fun i => i.date.isNone)

theorem applyOptFilter_none {α : Type} (pred : String → α → Bool) (l : List α) :
    applyOptFilter none pred l = l := rfl

theorem applyOptFilter_emptyStr {α : Type} (pred : String → α → Bool) (l : List α) :
    applyOptFilter (some "") pred l = l := by
  simp [applyOptFilter, show "".isEmpty = true from by decide]

theorem sum_map_ite_one {β : Type} [DecidableEq β] (b : β) (vals : List β)
    (hn : vals.Nodup) (hb : b ∈ vals) :
    (vals.map (fun v => if b = v then 1 else 0)).sum = 1 := by
  induction vals with
  | nil => cases hb
  | cons v t ih =>
    rcases List.mem_cons.mp hb with h | h
    · subst h
      have hnot : b ∉ t := (List.nodup_cons.mp hn).1
      have hz : (t.map (fun v => if b = v then 1 else 0)).sum = 0 := by
        refine List.sum_eq_zero ?_
        intro n hnmem
        rcases List.mem_map.mp hnmem with ⟨v, hv, rfl⟩
        have : b ≠ v := fun h => hnot (h ▸ hv)
        simp [this]
      simp [hz]
    · have hne : b ≠ v := by
        rintro rfl
        exact (List.nodup_cons.mp hn).1 h
      have := ih (List.nodup_cons.mp hn).2 h
      simp [hne, this]

theorem sum_map_add_nat {β : Type} (f g : β → Nat) (vals : List β) :
    (vals.map (fun v => f v + g v)).sum = (vals.map f).sum + (vals.map g).sum := by
  induction vals with
  | nil => simp
  | cons v t ih => simp [ih]; omega

theorem sum_countP_cover {α β : Type} [DecidableEq β] (key : α → β) (l : List α)
    (vals : List β) (hn : vals.Nodup) (hcov : ∀ x ∈ l, key x ∈ vals) :
    (vals.map (fun b => l.countP (fun x => decide (key x = b)))).sum = l.length := by
  induction l with
  | nil => simp
  | cons x t ih =>
    have hx : key x ∈ vals := hcov x (List.mem_cons_self x t)
    have hcov' : ∀ y ∈ t, key y ∈ vals := fun y hy => hcov y (List.mem_cons_of_mem x hy)
    have hcnt : ∀ b : β, (x :: t).countP (fun z => decide (key z = b)) =
        t.countP (fun z => decide (key z = b)) + (if key x = b then 1 else 0) := by
      intro b
      rw [List.countP_cons]
      by_cases h : key x = b <;> simp [h]
    calc (vals.map (fun b => (x :: t).countP (fun z => decide (key z = b)))).sum
        = (vals.map (fun b => t.countP (fun z => decide (key z = b)) +
            (if key x = b then 1 else 0))).sum := by
          exact congrArg List.sum (List.map_congr_left (fun b _ => hcnt b))
      _ = (vals.map (fun b => t.countP (fun z => decide (key z = b)))).sum +
            (vals.map (fun b => if key x = b then 1 else 0)).sum :=
          sum_map_add_nat _ _ vals
      _ = t.length + 1 := by rw [ih hcov', sum_map_ite_one (key x) vals hn hx]
      _ = (x :: t).length := by simp

theorem sumCounts_groupCounts {α β : Type} [DecidableEq β] (key : α → β)
    (l : List α) : sumCounts (groupCounts key l) = l.length := by
  unfold sumCounts groupCounts
  rw [List.map_map]
  have : ((l.map key).dedup.map
      (Prod.snd ∘ fun b => (b, l.countP (fun x => decide (key x = b))))) =
      ((l.map key).dedup.map (fun b => l.countP (fun x => decide (key x = b)))) := rfl
  rw [this]
  exact sum_countP_cover key l _ (List.nodup_dedup _)
    (fun x hx => List.mem_dedup.mpr (List.mem_map_of_mem key hx))

theorem groupCounts_keys_mem {α β : Type} [DecidableEq β] (key : α → β)
    (l : List α) (x : α) (hx : x ∈ l) :
    key x ∈ (groupCounts key l).map Prod.fst := by
  unfold groupCounts
  rw [List.map_map]
  have : (Prod.fst ∘ fun b => (b, l.countP (fun z => decide (key z = b)))) =
      (fun b : β => b) := rfl
  rw [this, List.map_id']
  exact List.mem_dedup.mpr (List.mem_map_of_mem key hx)

theorem dedup_length_option {β : Type} [DecidableEq β] (d : List (Option β)) :
    d.dedup.length = (d.filterMap id).dedup.length + (if none ∈ d then 1 else 0) := by
  induction d with
  | nil => simp
  | cons a t ih =>
    cases a with
    | none =>
      by_cases h : (none : Option β) ∈ t
      · simp [List.dedup_cons_of_mem h, ih, h]
      · simp [List.dedup_cons_of_not_mem h, ih, h]
        try omega
    | some b =>
      have hmem : some b ∈ t ↔ b ∈ t.filterMap id := by simp [List.mem_filterMap]
      by_cases h : some b ∈ t
      · simp [List.dedup_cons_of_mem h, List.dedup_cons_of_mem (hmem.mp h), ih,
          List.mem_cons]
      · simp [List.dedup_cons_of_not_mem h,
          List.dedup_cons_of_not_mem (fun hc => h (hmem.mpr hc)), ih, List.mem_cons]
        try omega

theorem floatTruthy_iff (o : Option ℚ) :
    floatTruthy o = true ↔ ∃ q, o = some q ∧ q ≠ 0 := by
  cases o with
  | none => simp [floatTruthy]
  | some q => simp [floatTruthy]

theorem mem_filter_map_iff {α β : Type} (f : α → Bool) (g : α → β) (l : List α)
    (r : β) : r ∈ (l.filter f).map g ↔ ∃ i ∈ l, f i ∧ r = g i := by
  constructor
  · intro h
    rcases List.mem_map.mp h with ⟨i, hi, rfl⟩
    rcases List.mem_filter.mp hi with ⟨hil, hf⟩
    exact ⟨i, hil, hf, rfl⟩
  · rintro ⟨i, hil, hf, rfl⟩
    exact List.mem_map_of_mem g (List.mem_filter.mpr ⟨hil, hf⟩)

theorem takeWhile_append_stop {p : Char → Bool} (xs : List Char) (y : Char)
    (ys : List Char) (hx : ∀ x ∈ xs, p x = true) (hy : p y = false) :
    ((xs ++ y :: ys).takeWhile p) = xs := by
  induction xs with
  | nil => simp [List.takeWhile_cons, hy]
  | cons a t ih =>
    have ha : p a = true := hx a (List.mem_cons_self a t)
    simp only [List.cons_append, List.takeWhile_cons, ha, if_true]
    rw [ih (fun x hxt => hx x (List.mem_cons_of_mem a hxt))]

theorem firstLineChars_of_header (hdr body : String)
    (hh : ∀ c ∈ hdr.data, c ≠ '\r') :
    firstLineChars (hdr ++ "\r\n" ++ body) = hdr.data := by
  unfold firstLineChars
  have hdata : (hdr ++ "\r\n" ++ body).data = hdr.data ++ '\r' :: '\n' :: body.data := by
    rw [String.data_append, String.data_append,
      show ("\r\n").data = ['\r', '\n'] from by decide]
    simp
  rw [hdata]
  exact takeWhile_append_stop hdr.data '\r' ('\n' :: body.data)
    (fun x hx => by simpa using hh x hx) (by decide)

theorem tsStep_some (b g : Option String × Nat) :
    tsStep (some b) g =
      if g.2 > b.2 || (g.2 == b.2 && statusLt b.1 g.1) then some g else some b := rfl

theorem topStatusGroup_foldl_some (gs : List (Option String × Nat))
    (b : Option String × Nat) :
    ∃ t, gs.foldl tsStep (some b) = some t ∧
      (t = b ∨ t ∈ gs) ∧ b.2 ≤ t.2 ∧ ∀ g ∈ gs, g.2 ≤ t.2 := by
  induction gs generalizing b with
  | nil => exact ⟨b, rfl, Or.inl rfl, Nat.le_refl _, by simp⟩
  | cons g tail ih =>
    by_cases hc : (decide (g.2 > b.2) || (g.2 == b.2 && statusLt b.1 g.1)) = true
    · have hbg : b.2 ≤ g.2 := by
        rcases (Bool.or_eq_true _ _).mp hc with h1 | h2
        · exact Nat.le_of_lt (of_decide_eq_true h1)
        · have hg : g.2 = b.2 := by
            have := ((Bool.and_eq_true _ _).mp h2).1
            exact beq_iff_eq.mp this
          omega
      rcases ih g with ⟨t, ht, hmem, hle, hall⟩
      refine ⟨t, ?_, ?_, Nat.le_trans hbg hle, ?_⟩
      · rw [List.foldl_cons, tsStep_some, if_pos hc]
        exact ht
      · rcases hmem with h | h
        · exact Or.inr (h ▸ List.mem_cons_self g tail)
        · exact Or.inr (List.mem_cons_of_mem g h)
      · intro x hx
        rcases List.mem_cons.mp hx with h | h
        · exact h ▸ hle
        · exact hall x h
    · have hgb : g.2 ≤ b.2 := by
        have h1 : decide (g.2 > b.2) = false := by
          cases hd : decide (g.2 > b.2) with
          | false => rfl
          | true => exact absurd ((Bool.or_eq_true _ _).mpr (Or.inl hd)) hc
        have := of_decide_eq_false h1
        omega
      rcases ih b with ⟨t, ht, hmem, hle, hall⟩
      refine ⟨t, ?_, ?_, hle, ?_⟩
      · rw [List.foldl_cons, tsStep_some, if_neg (by simpa using hc)]
        exact ht
      · rcases hmem with h | h
        · exact Or.inl h
        · exact Or.inr (List.mem_cons_of_mem g h)
      · intro x hx
        rcases List.mem_cons.mp hx with h | h
        · exact h ▸ Nat.le_trans hgb hle
        · exact hall x h

theorem topStatusGroup_spec (gs : List (Option String × Nat)) (hne : gs ≠ []) :
    ∃ t, topStatusGroup gs = some t ∧ t ∈ gs ∧ ∀ g ∈ gs, g.2 ≤ t.2 := by
  cases gs with
  | nil => exact absurd rfl hne
  | cons g tail =>
    unfold topStatusGroup
    rw [List.foldl_cons]
    have hstep : tsStep none g = some g := rfl
    rw [hstep]
    rcases topStatusGroup_foldl_some tail g with ⟨t, ht, hmem, hle, hall⟩
    refine ⟨t, ht, ?_, ?_⟩
    · rcases hmem with h | h
      · exact h ▸ List.mem_cons_self g tail
      · exact List.mem_cons_of_mem g h
    · intro x hx
      rcases List.mem_cons.mp hx with h | h
      · exact h ▸ hle
      · exact hall x h

theorem sorted_applyOptFilter {α : Type} (r : α → α → Prop) (param : Option String)
    (pred : String → α → Bool) (l : List α) (h : List.Sorted r l) :
    List.Sorted r (applyOptFilter param pred l) := by
  unfold applyOptFilter
  cases param with
  | none => exact h
  | some s =>
    by_cases he : s.isEmpty
    · simpa [he] using h
    · simpa [he] using h.filter (pred s)

/-- Sample policy: California, status "enacted". -/
def pCAenacted : Policy :=
  { id := 1, jurisdiction := "California", state_code := some "CA",
    policy_type := "statute", title := "AV Deployment Act",
    vehicle_class := none, date_enacted := none, status := some "enacted",
    summary := none, source_url := none, created_at := none, updated_at := none }

/-- Sample policy: California, status "pending". -/
def pCApending : Policy :=
  { id := 2, jurisdiction := "California", state_code := some "CA",
    policy_type := "bill", title := "AV Testing Bill",
    vehicle_class := none, date_enacted := none, status := some "pending",
    summary := none, source_url := none, created_at := none, updated_at := none }

/-- Sample policy: Texas, status "pending". -/
def pTXpending : Policy :=
  { id := 3, jurisdiction := "Texas", state_code := some "TX",
    policy_type := "bill", title := "AV Pilot Bill",
    vehicle_class := none, date_enacted := none, status := some "pending",
    summary := none, source_url := none, created_at := none, updated_at := none }

/-- Sample policy with a null state code. -/
def pNoState : Policy :=
  { id := 4, jurisdiction := "Federal", state_code := none,
    policy_type := "guidance", title := "Federal AV Guidance",
    vehicle_class := none, date_enacted := none, status := some "enacted",
    summary := none, source_url := none, created_at := none, updated_at := none }

/-- Sample safety incident with a null date. -/
def iNullDate : SafetyIncident :=
  { id := 1, report_id := none, date := none, manufacturer := "Waymo",
    vehicle_model := none, city := none, state := none, state_code := none,
    latitude := none, longitude := none, incident_type := some "collision",
    severity := some "minor", ads_engaged := none, description := none,
    source := none, source_url := none, created_at := none, updated_at := none }

/-- Sample safety incident with a date and truthy coordinates. -/
def iLocated : SafetyIncident :=
  { id := 2, report_id := none, date := some ⟨2023, 5, 1⟩,
    manufacturer := "Cruise", vehicle_model := none, city := some "Austin",
    state := some "Texas", state_code := some "TX", latitude := some 30,
    longitude := some 97, incident_type := some "collision",
    severity := some "minor", ads_engaged := none, description := none,
    source := none, source_url := none, created_at := none, updated_at := none }

/-- Sample deployment with null coordinates. -/
def dNoCoords : Deployment :=
  { id := 1, operator := "Waymo", program_name := none, city := "Phoenix",
    state := "Arizona", state_code := some "AZ", latitude := none,
    longitude := none, vehicle_type := some "robotaxi",
    operational_domain := none, status := some "active", start_date := none,
    description := none, source_url := none, created_at := none, updated_at := none }

/-- C2, counterexample.  A single policy whose `state_code` is null: the code
counts the NULL row of the DISTINCT subquery (result 1), while the claim's
"distinct non-null state codes" count is 0. -/
theorem C2_counterexample :
    states_with_legislation [pNoState] ≠ distinctNonNullStateCodes [pNoState] := by
  decide

/-- C2 (amended): `states_with_legislation` equals the number of distinct
non-null state codes plus one when some policy has a null state code —
`SELECT count(*)` over the DISTINCT subquery counts the NULL group too. -/
theorem C2_states_with_legislation (l : List Policy) :
    states_with_legislation l =
      distinctNonNullStateCodes l +
        (if l.any (fun p => p.state_code.isNone) then 1 else 0) := by
  unfold states_with_legislation distinctNonNullStateCodes
  rw [dedup_length_option (l.map Policy.state_code)]
  have h1 : (l.map Policy.state_code).filterMap id = l.filterMap Policy.state_code := by
    rw [List.filterMap_map]
    rfl
  rw [h1]
  congr 1
  have h2 : ((none : Option String) ∈ l.map Policy.state_code) ↔
      (l.any (fun p => p.state_code.isNone) = true) := by
    constructor
    · intro h
      rcases List.mem_map.mp h with ⟨p, hp, he⟩
      exact List.any_eq_true.mpr ⟨p, hp, by simp [he]⟩
    · intro h
      rcases List.any_eq_true.mp h with ⟨p, hp, hn⟩
      exact List.mem_map.mpr ⟨p, hp, by simpa [Option.isNone_iff_eq_none] using hn⟩
  exact if_congr h2 rfl rfl

theorem all_congr_mem {α : Type} (p q : α → Bool) (l : List α)
    (h : ∀ a ∈ l, p a = q a) : l.all p = l.all q := by
  induction l with
  | nil => rfl
  | cons a t ih =>
    simp only [List.all_cons, h a (List.mem_cons_self a t),
      ih (fun x hx => h x (List.mem_cons_of_mem a hx))]

theorem any_congr_mem {α : Type} (p q : α → Bool) (l : List α)
    (h : ∀ a ∈ l, p a = q a) : l.any p = l.any q := by
  induction l with
  | nil => rfl
  | cons a t ih =>
    simp only [List.any_cons, h a (List.mem_cons_self a t),
      ih (fun x hx => h x (List.mem_cons_of_mem a hx))]

theorem digitsVal_foldl_congr (f g : Char → Option Nat) :
    ∀ (cs : List Char) (n : Nat), (∀ c ∈ cs, f c = g c) →
      cs.foldl (fun n c => 10 * n + (f c).getD 0) n =
        cs.foldl (fun n c => 10 * n + (g c).getD 0) n := by
  intro cs
  induction cs with
  | nil => intro n _; rfl
  | cons a t ih =>
    intro n h
    simp only [List.foldl_cons, h a (List.mem_cons_self a t)]
    exact ih _ (fun x hx => h x (List.mem_cons_of_mem a hx))

theorem digitsVal_congr (f g : Char → Option Nat) (cs : List Char)
    (h : ∀ c ∈ cs, f c = g c) : digitsVal f cs = digitsVal g cs :=
  digitsVal_foldl_congr f g cs 0 h

theorem floatOfDigits_congr (f g : Char → Option Nat) (s : String)
    (h : ∀ c ∈ s.data, f c = g c) : floatOfDigits f s = floatOfDigits g s := by
  unfold floatOfDigits
  have hall : (s.data.all (fun c => (f c).isSome || c == '.')) =
      (s.data.all (fun c => (g c).isSome || c == '.')) :=
    all_congr_mem _ _ _ (fun c hc => by rw [h c hc])
  have hany : (s.data.any (fun c => (f c).isSome)) =
      (s.data.any (fun c => (g c).isSome)) :=
    any_congr_mem _ _ _ (fun c hc => by rw [h c hc])
  rw [hall, hany]
  by_cases hc : (s.data.all (fun c => (g c).isSome || c == '.') &&
      s.data.count '.' ≤ 1 && s.data.any (fun c => (g c).isSome)) = true
  · rw [if_pos hc, if_pos hc]
    have hint : digitsVal f (s.data.takeWhile (fun c => c ≠ '.')) =
        digitsVal g (s.data.takeWhile (fun c => c ≠ '.')) :=
      digitsVal_congr f g _
        (fun c hcm => h c ((List.takeWhile_sublist _).subset hcm))
    have hfrac : digitsVal f ((s.data.dropWhile (fun c => c ≠ '.')).drop 1) =
        digitsVal g ((s.data.dropWhile (fun c => c ≠ '.')).drop 1) :=
      digitsVal_congr f g _
        (fun c hcm => h c ((List.dropWhile_sublist _).subset
          ((List.drop_sublist 1 _).subset hcm)))
    rw [hint, hfrac]
  · rw [if_neg hc, if_neg hc]

theorem pyDigitVal_ascii (c : Char) (h : c.toNat < 128) :
    pyDigitVal c = asciiDigitVal c := by
  unfold pyDigitVal asciiDigitVal
  by_cases hd : c.isDigit
  · simp [hd]
  · have hfind : ndBlockStarts.find?
        (fun s => decide (s ≤ c.toNat) && decide (c.toNat < s + 10)) = none := by
      rw [List.find?_eq_none]
      intro x hx
      have hmin : 1632 ≤ x := by
        have hall : ∀ y ∈ ndBlockStarts, 1632 ≤ y := by decide
        exact hall x hx
      simp only [Bool.and_eq_true, decide_eq_true_eq, not_and]
      intro h1
      omega
    simp [hd, hfind]

/-- On ASCII-only input the source parser coincides with the claim's
ASCII-strip algorithm (the divergence is confined to non-ASCII digits). -/
theorem parse_eq_spec_ascii (s : String) (h : ∀ c ∈ s.data, c.toNat < 128) :
    parse_funding_amount (some s) = spec_parse_ascii (some s) := by
  have hdv : ∀ c ∈ s.data, pyDigitVal c = asciiDigitVal c :=
    fun c hc => pyDigitVal_ascii c (h c hc)
  have hstrip : stripNonDigitDot s = stripToDigitsDot asciiDigitVal s := by
    unfold stripNonDigitDot stripToDigitsDot
    exact congrArg String.mk (List.filter_congr (fun c hc => by rw [hdv c hc]))
  have hmem : ∀ c ∈ (stripToDigitsDot asciiDigitVal s).data, c ∈ s.data := by
    intro c hc
    exact (List.mem_filter.mp hc).1
  have hfl : pyFloatOfCleaned (stripNonDigitDot s) =
      floatOfDigits asciiDigitVal (stripToDigitsDot asciiDigitVal s) := by
    rw [hstrip]
    unfold pyFloatOfCleaned
    exact floatOfDigits_congr _ _ _ (fun c hc => hdv c (hmem c hc))
  show (if s.isEmpty then (0 : ℚ)
      else (pyFloatOfCleaned (stripNonDigitDot s)).getD 0) =
    (if s.isEmpty then (0 : ℚ)
      else (floatOfDigits asciiDigitVal (stripToDigitsDot asciiDigitVal s)).getD 0)
  rw [hfl]

/-- Shared evaluation: the source parser on the Arabic-Indic digit string
"٥٠" (stripped intact, parsed with Unicode decimal values) yields 50. -/
theorem parse_arabic_digits_eq : parse_funding_amount (some "٥٠") = 50 := by
  have hne : ("٥٠").isEmpty = false := by decide
  have hcond : (("٥٠").data.all (fun c => (pyDigitVal c).isSome || c == '.') &&
      ("٥٠").data.count '.' ≤ 1 &&
      ("٥٠").data.any (fun c => (pyDigitVal c).isSome)) = true := by decide
  have hstrip : stripNonDigitDot "٥٠" = "٥٠" := by decide
  have hint : digitsVal pyDigitVal (("٥٠").data.takeWhile (fun c => c ≠ '.')) = 50 := by
    decide
  have hfrac : digitsVal pyDigitVal ((("٥٠").data.dropWhile (fun c => c ≠ '.')).drop 1) = 0 := by
    decide
  have hlen : ((("٥٠").data.dropWhile (fun c => c ≠ '.')).drop 1).length = 0 := by decide
  show (if ("٥٠").isEmpty then (0 : ℚ)
      else (pyFloatOfCleaned (stripNonDigitDot "٥٠")).getD 0) = 50
  rw [hne]
  simp only [Bool.false_eq_true, if_false, hstrip]
  unfold pyFloatOfCleaned floatOfDigits
  rw [if_pos hcond, hint, hfrac, hlen]
  norm_num

/-- Shared evaluation: the claim's ASCII algorithm strips "٥٠" to the empty
string and degrades to 0. -/
theorem spec_ascii_arabic_eq : spec_parse_ascii (some "٥٠") = 0 := by
  have hne : ("٥٠").isEmpty = false := by decide
  have hstrip : stripToDigitsDot asciiDigitVal "٥٠" = "" := by decide
  have hnone : floatOfDigits asciiDigitVal "" = none := by decide
  show (if ("٥٠").isEmpty then (0 : ℚ)
      else (floatOfDigits asciiDigitVal (stripToDigitsDot asciiDigitVal "٥٠")).getD 0) = 0
  rw [hne]
  simp only [Bool.false_eq_true, if_false, hstrip, hnone, Option.getD_none]

/-- C3, counterexample.  Python's `\d` keeps every Unicode decimal digit and
`float()` parses them, so on the Arabic-Indic string "٥٠" the source parser
returns 50.0 while the claim's "strip every character that is not an ASCII
digit" algorithm returns 0.0: the claimed universal equality is false. -/
theorem C3_counterexample :
    parse_funding_amount (some "٥٠") ≠ spec_parse_ascii (some "٥٠") := by
  rw [parse_arabic_digits_eq, spec_ascii_arabic_eq]
  norm_num

/-- C3 (amended): the parser strips every character that is not a Unicode
decimal digit (regex `\d`) or a decimal point and parses the remainder with
each digit contributing its decimal value; null or empty input yields 0, a
stripped string that fails to parse yields 0, the embedded parser is total
(it never raises); the spec's worked examples hold exactly, and on
ASCII-only input (every funding string of this API) the parser coincides
with the claim's ASCII-strip algorithm — but on non-ASCII digits it differs,
e.g. parse("٥٠") = 50. -/
theorem C3_parse_funding_amount (s : String) (q : ℚ) :
    parse_funding_amount none = 0 ∧
    parse_funding_amount (some "") = 0 ∧
    parse_funding_amount (some "abc") = 0 ∧
    parse_funding_amount (some "$100,000,000") = 100000000 ∧
    parse_funding_amount (some "$12.50") = 12.5 ∧
    parse_funding_amount (some "٥٠") = 50 ∧
    (pyFloatOfCleaned (stripNonDigitDot s) = some q →
      parse_funding_amount (some s) = q) ∧
    (pyFloatOfCleaned (stripNonDigitDot s) = none →
      parse_funding_amount (some s) = 0) ∧
    ((∀ c ∈ s.data, c.toNat < 128) →
      parse_funding_amount (some s) = spec_parse_ascii (some s)) := by
  refine ⟨rfl, by decide, ?_, ?_, ?_, parse_arabic_digits_eq, ?_, ?_,
    parse_eq_spec_ascii s⟩
  · rw [parse_eq_spec_ascii "abc" (by decide)]
    simp [spec_parse_ascii, stripToDigitsDot, floatOfDigits, digitsVal,
      asciiDigitVal, show ("abc").isEmpty = false from by decide]
  · rw [parse_eq_spec_ascii "$100,000,000" (by decide)]
    simp [spec_parse_ascii, stripToDigitsDot, floatOfDigits, digitsVal,
      asciiDigitVal, show ("$100,000,000").isEmpty = false from by decide]
  · rw [parse_eq_spec_ascii "$12.50" (by decide)]
    simp [spec_parse_ascii, stripToDigitsDot, floatOfDigits, digitsVal,
      asciiDigitVal, show ("$12.50").isEmpty = false from by decide]
    norm_num
  · intro h
    by_cases he : s.isEmpty
    · have hs : s = "" := (String.isEmpty_iff s).mp he
      subst hs
      rw [show pyFloatOfCleaned (stripNonDigitDot "") = none from by decide] at h
      cases h
    · simp [parse_funding_amount, he, h]
  · intro h
    by_cases he : s.isEmpty
    · simp [parse_funding_amount, he]
    · simp [parse_funding_amount, he, h]

/-- C3 witness: the parser theorem applied at the concrete input "55",
discharging the parse-success and ASCII hypotheses there. -/
theorem C3_witness :
    pyFloatOfCleaned (stripNonDigitDot "55") = some 55 ∧
    parse_funding_amount (some "55") = 55 ∧
    parse_funding_amount (some "55") = spec_parse_ascii (some "55") := by
  have h : pyFloatOfCleaned (stripNonDigitDot "55") = some 55 := by
    have hstrip : stripNonDigitDot "55" = "55" := by decide
    have hcond : (("55").data.all (fun c => (pyDigitVal c).isSome || c == '.') &&
        ("55").data.count '.' ≤ 1 &&
        ("55").data.any (fun c => (pyDigitVal c).isSome)) = true := by decide
    have hint : digitsVal pyDigitVal (("55").data.takeWhile (fun c => c ≠ '.')) = 55 := by
      decide
    have hfrac : digitsVal pyDigitVal
        ((("55").data.dropWhile (fun c => c ≠ '.')).drop 1) = 0 := by decide
    have hlen : ((("55").data.dropWhile (fun c => c ≠ '.')).drop 1).length = 0 := by
      decide
    rw [hstrip]
    unfold pyFloatOfCleaned floatOfDigits
    rw [if_pos hcond, hint, hfrac, hlen]
    norm_num
  exact ⟨h, (C3_parse_funding_amount "55" 55).2.2.2.2.2.2.1 h,
    (C3_parse_funding_amount "55" 55).2.2.2.2.2.2.2.2 (by decide)⟩

/-- C4, counterexample.  A single incident with a null date: the by-year
grouping keeps it as a group keyed by a null year (sum of counts 1), while
the claim predicts sum = total minus null-date records = 0. -/
theorem C4_counterexample :
    sumCounts (safety_stats_by_year [iNullDate]) ≠
      [iNullDate].length - nullDateCount [iNullDate] := by
  decide

/-- C4 (amended): in every grouped safety count — by manufacturer, type,
severity AND by year — records with a null field value form their own group
keyed by a null marker (for the year grouping, a null year key), so the sum
of group counts always equals the total record count; no records are
excluded.  (The schema additionally declares `date` NOT NULL, which would
make the null-year group unreachable for schema-valid stores.) -/
theorem C4_grouped_counts (l : List SafetyIncident) :
    sumCounts (safety_stats_by_manufacturer l) = l.length ∧
    sumCounts (safety_stats_by_type l) = l.length ∧
    sumCounts (safety_stats_by_severity l) = l.length ∧
    sumCounts (safety_stats_by_year l) = l.length ∧
    (∀ i ∈ l, i.incident_type ∈ (safety_stats_by_type l).map Prod.fst) ∧
    (∀ i ∈ l, i.severity ∈ (safety_stats_by_severity l).map Prod.fst) ∧
    (∀ i ∈ l, pyYearRender (extractYear i.date) ∈
      (safety_stats_by_year l).map Prod.fst) := by
  refine ⟨sumCounts_groupCounts _ l, sumCounts_groupCounts _ l,
    sumCounts_groupCounts _ l, ?_, ?_, ?_, ?_⟩
  · have h : sumCounts (safety_stats_by_year l) =
        sumCounts (groupCounts (fun i => extractYear i.date) l) := by
      unfold safety_stats_by_year sumCounts
      rw [List.map_map]
      rfl
    rw [h]
    exact sumCounts_groupCounts _ l
  · intro i hi
    exact groupCounts_keys_mem SafetyIncident.incident_type l i hi
  · intro i hi
    exact groupCounts_keys_mem SafetyIncident.severity l i hi
  · intro i hi
    have h1 := groupCounts_keys_mem (fun i => extractYear i.date) l i hi
    unfold safety_stats_by_year
    rw [List.map_map]
    rcases List.mem_map.mp h1 with ⟨g, hg, he⟩
    exact List.mem_map.mpr ⟨g, hg, by simp [Function.comp, he]⟩

/-- C4 witness: the grouped-count theorem applied to a one-record store. -/
theorem C4_witness :
    sumCounts (safety_stats_by_manufacturer [iLocated]) = 1 ∧
    pyYearRender (extractYear iLocated.date) ∈
      (safety_stats_by_year [iLocated]).map Prod.fst := by
  have h := C4_grouped_counts [iLocated]
  exact ⟨h.1, h.2.2.2.2.2.2 iLocated (List.mem_cons_self _ _)⟩

/-- C1, counterexample.  A deployment with null latitude and longitude
appears in the deployments map-locations projection: main.py's
`deployments_map_locations` has no coordinate filter, unlike the safety and
curbside projections. -/
theorem C1_counterexample :
    ∃ r ∈ deployments_map_locations [dNoCoords], r.latitude = none := by
  exact ⟨deploymentLocOf dNoCoords, List.mem_cons_self _ _, rfl⟩

/-- C1 (amended): the SafetyIncident and CurbsideRegulation map-location
projections contain exactly the projections of records whose latitude and
longitude are both present and non-zero (exclusion is silent — the
projection is total), but the Deployment projection performs no coordinate
filtering: it contains the projection of every record, null coordinates
included. -/
theorem C1_map_locations (ld : List Deployment) (ls : List SafetyIncident)
    (lc : List CurbsideRegulation) :
    ((deployments_map_locations ld).length = ld.length ∧
      ∀ d ∈ ld, deploymentLocOf d ∈ deployments_map_locations ld) ∧
    (∀ r, r ∈ safety_map_locations ls ↔
      ∃ i ∈ ls, ((∃ q, i.latitude = some q ∧ q ≠ 0) ∧
        (∃ q, i.longitude = some q ∧ q ≠ 0)) ∧ r = safetyLocOf i) ∧
    (∀ r, r ∈ curbside_map_locations lc ↔
      ∃ c ∈ lc, ((∃ q, c.latitude = some q ∧ q ≠ 0) ∧
        (∃ q, c.longitude = some q ∧ q ≠ 0)) ∧ r = curbsideLocOf c) := by
  refine ⟨⟨List.length_map ld deploymentLocOf, ?_⟩, ?_, ?_⟩
  · intro d hd
    exact List.mem_map_of_mem deploymentLocOf hd
  · intro r
    rw [safety_map_locations, mem_filter_map_iff]
    constructor
    · rintro ⟨i, hi, hf, rfl⟩
      rcases Bool.and_eq_true _ _ |>.mp hf with ⟨h1, h2⟩
      exact ⟨i, hi, ⟨(floatTruthy_iff _).mp h1, (floatTruthy_iff _).mp h2⟩, rfl⟩
    · rintro ⟨i, hi, ⟨h1, h2⟩, rfl⟩
      refine ⟨i, hi, ?_, rfl⟩
      rw [Bool.and_eq_true]
      exact ⟨(floatTruthy_iff _).mpr h1, (floatTruthy_iff _).mpr h2⟩
  · intro r
    rw [curbside_map_locations, mem_filter_map_iff]
    constructor
    · rintro ⟨c, hc, hf, rfl⟩
      rcases Bool.and_eq_true _ _ |>.mp hf with ⟨h1, h2⟩
      exact ⟨c, hc, ⟨(floatTruthy_iff _).mp h1, (floatTruthy_iff _).mp h2⟩, rfl⟩
    · rintro ⟨c, hc, ⟨h1, h2⟩, rfl⟩
      refine ⟨c, hc, ?_, rfl⟩
      rw [Bool.and_eq_true]
      exact ⟨(floatTruthy_iff _).mpr h1, (floatTruthy_iff _).mpr h2⟩

/-- C1 witness: the amended projection theorem applied to one-record stores
(a deployment without coordinates still projected; a located incident
projected because both coordinates are present and non-zero). -/
theorem C1_witness :
    deploymentLocOf dNoCoords ∈ deployments_map_locations [dNoCoords] ∧
    safetyLocOf iLocated ∈ safety_map_locations [iLocated] := by
  have h := C1_map_locations [dNoCoords] [iLocated] []
  refine ⟨h.1.2 dNoCoords (List.mem_cons_self _ _), ?_⟩
  exact (h.2.1 (safetyLocOf iLocated)).mpr
    ⟨iLocated, List.mem_cons_self _ _,
      ⟨⟨30, rfl, by norm_num⟩, ⟨97, rfl, by norm_num⟩⟩, rfl⟩

theorem strTruthy_none_eq : strTruthy none = false := rfl

theorem strTruthy_emptyStr : strTruthy (some "") = false := by decide

/-- C7: evaluating the code at the failing input.  Supplying any non-empty
search term to the policies or safety list/export operations raises
`AttributeError` (main.py references `Policy.description` and
`SafetyIncident.title`, columns the models do not define), instead of
performing the case-insensitive substring search the claim describes. -/
theorem C7_search_filter_raises (lp : List Policy) (ls : List SafetyIncident) :
    filter_policies none none none (some "transit") lp =
      .error "AttributeError: type object Policy has no attribute description" ∧
    filter_safety none none none none (some "transit") ls =
      .error "AttributeError: type object SafetyIncident has no attribute title" := by
  constructor
  · simp [filter_policies, strTruthy, show ("transit").isEmpty = false from by decide]
  · simp [filter_safety, strTruthy, show ("transit").isEmpty = false from by decide]

/-- C9: a filter or search parameter supplied as the empty string is falsy
in Python, so every `_filter_*` helper treats it exactly like an absent
parameter — for every parameter slot of every entity kind, the filtered
result (hence the list response and the exported record set) is unchanged. -/
theorem C9_empty_param_no_restriction (a b c d : Option String) :
    (∀ l : List Policy,
      filter_policies (some "") b c d l = filter_policies none b c d l ∧
      filter_policies a (some "") c d l = filter_policies a none c d l ∧
      filter_policies a b (some "") d l = filter_policies a b none d l ∧
      filter_policies a b c (some "") l = filter_policies a b c none l) ∧
    (∀ l : List Deployment,
      filter_deployments (some "") b c d a l = filter_deployments none b c d a l ∧
      filter_deployments a (some "") c d b l = filter_deployments a none c d b l ∧
      filter_deployments a b (some "") d c l = filter_deployments a b none d c l ∧
      filter_deployments a b c (some "") d l = filter_deployments a b c none d l ∧
      filter_deployments a b c d (some "") l = filter_deployments a b c d none l) ∧
    (∀ l : List FundingProgram,
      filter_funding (some "") b c d l = filter_funding none b c d l ∧
      filter_funding a (some "") c d l = filter_funding a none c d l ∧
      filter_funding a b (some "") d l = filter_funding a b none d l ∧
      filter_funding a b c (some "") l = filter_funding a b c none l) ∧
    (∀ l : List SafetyIncident,
      filter_safety (some "") b c d a l = filter_safety none b c d a l ∧
      filter_safety a (some "") c d b l = filter_safety a none c d b l ∧
      filter_safety a b (some "") d c l = filter_safety a b none d c l ∧
      filter_safety a b c (some "") d l = filter_safety a b c none d l ∧
      filter_safety a b c d (some "") l = filter_safety a b c d none l) ∧
    (∀ l : List Resource,
      filter_resources (some "") b c l = filter_resources none b c l ∧
      filter_resources a (some "") c l = filter_resources a none c l ∧
      filter_resources a b (some "") l = filter_resources a b none l) ∧
    (∀ l : List CurbsideRegulation,
      filter_curbside (some "") b c d a l = filter_curbside none b c d a l ∧
      filter_curbside a (some "") c d b l = filter_curbside a none c d b l ∧
      filter_curbside a b (some "") d c l = filter_curbside a b none d c l ∧
      filter_curbside a b c (some "") d l = filter_curbside a b c none d l ∧
      filter_curbside a b c d (some "") l = filter_curbside a b c d none l) ∧
    (∀ l : List NewsArticle,
      filter_news (some "") b l = filter_news none b l ∧
      filter_news a (some "") l = filter_news a none l) := by
  refine ⟨?_, ?_, ?_, ?_, ?_, ?_, ?_⟩ <;>
    intro l <;>
    simp [filter_policies, filter_deployments, filter_funding, filter_safety,
      filter_resources, filter_curbside, filter_news,
      applyOptFilter_emptyStr, applyOptFilter_none,
      strTruthy_emptyStr, strTruthy_none_eq]

/-- C10: the news list operation orders by descending publication date for
every combination of category and search filters — the `ORDER BY` is applied
before the filters in `_filter_news`, and filtering preserves the order;
the news CSV export serialises exactly this list. -/
theorem C10_news_sorted (category search : Option String) (l : List NewsArticle) :
    List.Sorted newsDateGe (filter_news category search l) := by
  unfold filter_news
  have h0 : List.Sorted newsDateGe (sortNewsByDateDesc l) :=
    List.sorted_insertionSort newsDateGe l
  exact sorted_applyOptFilter _ _ _ _ (sorted_applyOptFilter _ _ _ _ h0)

theorem find_id_none_iff {α : Type} (f : α → Nat) (l : List α) (n : Nat) :
    l.find? (fun x => f x == n) = none ↔ ∀ x ∈ l, f x ≠ n := by
  rw [List.find?_eq_none]
  constructor
  · intro h x hx
    have := h x hx
    simpa using this
  · intro h x hx
    simpa using h x hx

/-- Sample `PolicyCreate` body. -/
def pcSample : PolicyCreate :=
  { jurisdiction := "Nevada", state_code := some "NV", policy_type := "statute",
    title := "AV Fleet Act", vehicle_class := none, date_enacted := none,
    status := "enacted", summary := none, source_url := none }

/-- Sample `DeploymentCreate` body. -/
def dcSample : DeploymentCreate :=
  { operator := "Zoox", program_name := none, city := "Las Vegas",
    state := "Nevada", state_code := some "NV", latitude := none,
    longitude := none, vehicle_type := none, operational_domain := none,
    status := "active", start_date := none, description := none,
    source_url := none }

/-- C8: get, update and delete answer NotFound exactly when no record with
the requested identifier exists, and a NotFound update or delete leaves the
store unchanged (shown for the policy handlers the claim cites and for the
textually identical deployment handlers). -/
theorem C8_crud_not_found (l : List Policy) (pid : Nat) (d : PolicyCreate)
    (ld : List Deployment) (did : Nat) (dd : DeploymentCreate) :
    ((get_policy l pid = .error "Policy not found") ↔ ∀ p ∈ l, p.id ≠ pid) ∧
    (((update_policy l pid d).1 = .error "Policy not found") ↔ ∀ p ∈ l, p.id ≠ pid) ∧
    (((delete_policy l pid).1 = .error "Policy not found") ↔ ∀ p ∈ l, p.id ≠ pid) ∧
    ((∀ p ∈ l, p.id ≠ pid) → (update_policy l pid d).2 = l) ∧
    ((∀ p ∈ l, p.id ≠ pid) → (delete_policy l pid).2 = l) ∧
    ((get_deployment ld did = .error "Deployment not found") ↔ ∀ x ∈ ld, x.id ≠ did) ∧
    (((update_deployment ld did dd).1 = .error "Deployment not found") ↔
      ∀ x ∈ ld, x.id ≠ did) ∧
    (((delete_deployment ld did).1 = .error "Deployment not found") ↔
      ∀ x ∈ ld, x.id ≠ did) ∧
    ((∀ x ∈ ld, x.id ≠ did) → (update_deployment ld did dd).2 = ld) ∧
    ((∀ x ∈ ld, x.id ≠ did) → (delete_deployment ld did).2 = ld) := by
  have hp := find_id_none_iff Policy.id l pid
  have hd := find_id_none_iff Deployment.id ld did
  refine ⟨?_, ?_, ?_, ?_, ?_, ?_, ?_, ?_, ?_, ?_⟩
  · unfold get_policy
    cases hf : l.find? (fun p => p.id == pid) with
    | none => simpa [hf] using hp.mp hf
    | some p =>
      have hmem := List.mem_of_find?_eq_some hf
      have heq : p.id = pid := by simpa using List.find?_some hf
      simp [hf]
      exact ⟨p, hmem, heq⟩
  · unfold update_policy
    cases hf : l.find? (fun p => p.id == pid) with
    | none => simpa [hf] using hp.mp hf
    | some p =>
      have hmem := List.mem_of_find?_eq_some hf
      have heq : p.id = pid := by simpa using List.find?_some hf
      simp [hf]
      exact ⟨p, hmem, heq⟩
  · unfold delete_policy
    cases hf : l.find? (fun p => p.id == pid) with
    | none => simpa [hf] using hp.mp hf
    | some p =>
      have hmem := List.mem_of_find?_eq_some hf
      have heq : p.id = pid := by simpa using List.find?_some hf
      simp [hf]
      exact ⟨p, hmem, heq⟩
  · intro h
    unfold update_policy
    rw [hp.mpr h]
  · intro h
    unfold delete_policy
    rw [hp.mpr h]
  · unfold get_deployment
    cases hf : ld.find? (fun x => x.id == did) with
    | none => simpa [hf] using hd.mp hf
    | some x =>
      have hmem := List.mem_of_find?_eq_some hf
      have heq : x.id = did := by simpa using List.find?_some hf
      simp [hf]
      exact ⟨x, hmem, heq⟩
  · unfold update_deployment
    cases hf : ld.find? (fun x => x.id == did) with
    | none => simpa [hf] using hd.mp hf
    | some x =>
      have hmem := List.mem_of_find?_eq_some hf
      have heq : x.id = did := by simpa using List.find?_some hf
      simp [hf]
      exact ⟨x, hmem, heq⟩
  · unfold delete_deployment
    cases hf : ld.find? (fun x => x.id == did) with
    | none => simpa [hf] using hd.mp hf
    | some x =>
      have hmem := List.mem_of_find?_eq_some hf
      have heq : x.id = did := by simpa using List.find?_some hf
      simp [hf]
      exact ⟨x, hmem, heq⟩
  · intro h
    unfold update_deployment
    rw [hd.mpr h]
  · intro h
    unfold delete_deployment
    rw [hd.mpr h]

/-- C8 witness: the CRUD theorem applied to an empty store and id 7. -/
theorem C8_witness :
    get_policy [] 7 = .error "Policy not found" ∧
    (update_policy [] 7 pcSample).2 = [] ∧
    (delete_deployment [] 7).2 = [] := by
  have h := C8_crud_not_found [] 7 pcSample [] 7 dcSample
  exact ⟨h.1.mpr (by simp), h.2.2.2.1 (by simp), h.2.2.2.2.2.2.2.2.2 (by simp)⟩

/-- Spec-side classification (spec section 4, written from the spec's words):
the most-frequent status maps case-insensitively to "active" for
enacted/active/signed, to "under_consideration" for
pending/proposed/introduced, and to "none" otherwise. -/
def classifySpec (t : Option String) : String :=
  match t with
  | none => "none"
  | some s =>
    if pyLower s = "enacted" ∨ pyLower s = "active" ∨ pyLower s = "signed" then
      "active"
    else if pyLower s = "pending" ∨ pyLower s = "proposed" ∨ pyLower s = "introduced" then
      "under_consideration"
    else "none"

theorem contains_three_iff (x a b c : String) :
    ((([a, b, c] : List String).contains x) = true) ↔ (x = a ∨ x = b ∨ x = c) := by
  constructor
  · intro h
    simpa using List.elem_iff.mp h
  · intro h
    exact List.elem_iff.mpr (by simpa using h)

theorem classify_eq_spec (t : Option String) :
    classify_policy_status t = classifySpec t := by
  cases t with
  | none => rfl
  | some s =>
    by_cases he : s.isEmpty
    · have hs := (String.isEmpty_iff s).mp he
      subst hs
      decide
    · have he' : s.isEmpty = false := by
        cases h : s.isEmpty with
        | false => rfl
        | true => exact absurd h he
      have hgetD : (some s).getD "" = s := rfl
      by_cases h1 : pyLower s = "enacted" ∨ pyLower s = "active" ∨ pyLower s = "signed"
      · have hc : ((["enacted", "active", "signed"] : List String).contains
            (pyLower s)) = true := (contains_three_iff _ _ _ _).mpr h1
        simp [classify_policy_status, classifySpec, strTruthy, he', hgetD, hc, h1]
      · have hc : ((["enacted", "active", "signed"] : List String).contains
            (pyLower s)) = false := by
          cases h : (["enacted", "active", "signed"] : List String).contains (pyLower s) with
          | false => rfl
          | true => exact absurd ((contains_three_iff _ _ _ _).mp h) h1
        by_cases h2 : pyLower s = "pending" ∨ pyLower s = "proposed" ∨
            pyLower s = "introduced"
        · have hc2 : ((["pending", "proposed", "introduced"] : List String).contains
              (pyLower s)) = true := (contains_three_iff _ _ _ _).mpr h2
          simp [classify_policy_status, classifySpec, strTruthy, he', hgetD, hc, hc2, h1, h2]
        · have hc2 : ((["pending", "proposed", "introduced"] : List String).contains
              (pyLower s)) = false := by
            cases h : (["pending", "proposed", "introduced"] : List String).contains
                (pyLower s) with
            | false => rfl
            | true => exact absurd ((contains_three_iff _ _ _ _).mp h) h2
          simp [classify_policy_status, classifySpec, strTruthy, he', hgetD, hc, hc2, h1, h2]

theorem stateRollupOf_state_code (l : List Policy) (g : Option String × Nat) :
    (stateRollupOf l g).state_code = g.1 := rfl

theorem stateRollupOf_status (l : List Policy) (g : Option String × Nat) :
    (stateRollupOf l g).status = topStatusFor l g.1 := rfl

theorem policies_map_states_keys (l : List Policy) :
    (policies_map_states l).map StateRollup.state_code =
      (l.map Policy.state_code).dedup := by
  unfold policies_map_states groupCounts
  rw [List.map_map, List.map_map]
  have h : ∀ b ∈ (l.map Policy.state_code).dedup,
      ((StateRollup.state_code ∘ stateRollupOf l) ∘
        (fun b => (b, l.countP (fun x => decide (x.state_code = b))))) b = id b :=
    fun b _ => rfl
  rw [List.map_congr_left h, List.map_id]

/-- C5, counterexample.  At the claim's worked example CA's two statuses tie
(one "enacted", one "pending") and the code's `ORDER BY count(id) DESC ...
first()` resolves the tie to "pending" (observed SQLite behaviour), so the
CA entry is classified "under_consideration" and no CA entry is classified
"active" — contradicting the claim's "CA is classified active". -/
theorem C5_counterexample :
    (∃ e ∈ policies_map_states [pCAenacted, pCApending, pTXpending],
      e.state_code = some "CA" ∧ e.policy_status = "under_consideration") ∧
    ¬ ∃ e ∈ policies_map_states [pCAenacted, pCApending, pTXpending],
      e.state_code = some "CA" ∧ e.policy_status = "active" := by
  decide

/-- C5 (amended): the policy per-state rollup has exactly one entry per
state-code value occurring in the records (none for absent states); each
entry's status is a most-frequent status of that state's policies and its
classification agrees with the spec's three-bucket case-insensitive mapping;
at the worked example, however, CA's count tie between "enacted" and
"pending" is resolved by the code to "pending", so CA is classified
"under_consideration" (not "active"), while TX is "under_consideration" as
claimed. -/
theorem C5_policy_state_rollup :
    (∀ l : List Policy,
      ((policies_map_states l).map StateRollup.state_code =
        (l.map Policy.state_code).dedup) ∧
      ((policies_map_states l).map StateRollup.state_code).Nodup ∧
      (∀ sc : Option String,
        (∃ e ∈ policies_map_states l, e.state_code = sc) ↔
          ∃ p ∈ l, p.state_code = sc) ∧
      (∀ e ∈ policies_map_states l,
        e.policy_status = classifySpec e.status ∧
        (∀ st : Option String,
          (l.filter (fun p => p.state_code == e.state_code)).countP
              (fun p => decide (p.status = st)) ≤
            (l.filter (fun p => p.state_code == e.state_code)).countP
              (fun p => decide (p.status = e.status))))) ∧
    policies_map_states [pCAenacted, pCApending, pTXpending] =
      [⟨some "CA", 2, some "pending", "under_consideration"⟩,
       ⟨some "TX", 1, some "pending", "under_consideration"⟩] := by
  constructor
  · intro l
    refine ⟨policies_map_states_keys l, ?_, ?_, ?_⟩
    · rw [policies_map_states_keys l]
      exact List.nodup_dedup _
    · intro sc
      have h1 : (∃ e ∈ policies_map_states l, e.state_code = sc) ↔
          sc ∈ (policies_map_states l).map StateRollup.state_code := by
        simp [List.mem_map]
      rw [h1, policies_map_states_keys l]
      simp [List.mem_dedup, List.mem_map]
    · intro e he
      rcases List.mem_map.mp he with ⟨g, hg, rfl⟩
      constructor
      · rw [show (stateRollupOf l g).policy_status =
            classify_policy_status (topStatusFor l g.1) from rfl,
          stateRollupOf_status]
        exact classify_eq_spec _
      · intro st
        simp only [stateRollupOf_state_code, stateRollupOf_status]
        have hgmem : g.1 ∈ (l.map Policy.state_code).dedup := by
          unfold groupCounts at hg
          rcases List.mem_map.mp hg with ⟨b, hb, rfl⟩
          exact hb
        rcases List.mem_map.mp (List.mem_dedup.mp hgmem) with ⟨p0, hp0, hp0e⟩
        have hp0r : p0 ∈ l.filter (fun p => p.state_code == g.1) :=
          List.mem_filter.mpr ⟨hp0, by simp [hp0e]⟩
        have hrne : l.filter (fun p => p.state_code == g.1) ≠ [] := by
          intro h
          rw [h] at hp0r
          cases hp0r
        have hgsne : groupCounts Policy.status
            (l.filter (fun p => p.state_code == g.1)) ≠ [] := by
          unfold groupCounts
          intro h
          have h2 := List.map_eq_nil_iff.mp h
          have h3 := (List.dedup_eq_nil _).mp h2
          exact hrne (List.map_eq_nil_iff.mp h3)
        rcases topStatusGroup_spec _ hgsne with ⟨t, htop, htmem, hmax⟩
        have hstatus : topStatusFor l g.1 = t.1 := by
          unfold topStatusFor
          rw [htop]
        have ht2 : t.2 = (l.filter (fun p => p.state_code == g.1)).countP
            (fun p => decide (p.status = t.1)) := by
          unfold groupCounts at htmem
          rcases List.mem_map.mp htmem with ⟨b, _, he2⟩
          rw [← he2]
        simp only [hstatus]
        rw [← ht2]
        by_cases hst : st ∈ (l.filter (fun p => p.state_code == g.1)).map Policy.status
        · have hin : (st, (l.filter (fun p => p.state_code == g.1)).countP
              (fun p => decide (p.status = st))) ∈
              groupCounts Policy.status (l.filter (fun p => p.state_code == g.1)) := by
            unfold groupCounts
            exact List.mem_map_of_mem _ (List.mem_dedup.mpr hst)
          exact hmax _ hin
        · have h0 : (l.filter (fun p => p.state_code == g.1)).countP
              (fun p => decide (p.status = st)) = 0 := by
            rw [List.countP_eq_zero]
            intro p hp
            simp only [decide_eq_true_eq]
            intro hps
            exact hst (List.mem_map.mpr ⟨p, hp, hps⟩)
          rw [h0]
          exact Nat.zero_le _
  · decide

/-- C5 witness: the rollup theorem applied at the worked example — for the
CA entry, "enacted" occurs no more often than the selected top status
"pending". -/
theorem C5_witness :
    (⟨some "CA", 2, some "pending", "under_consideration"⟩ : StateRollup) ∈
      policies_map_states [pCAenacted, pCApending, pTXpending] ∧
    ([pCAenacted, pCApending, pTXpending].filter
        (fun p => p.state_code == some "CA")).countP
        (fun p => decide (p.status = some "enacted")) ≤
      ([pCAenacted, pCApending, pTXpending].filter
        (fun p => p.state_code == some "CA")).countP
        (fun p => decide (p.status = some "pending")) := by
  have h := C5_policy_state_rollup
  have hmem : (⟨some "CA", 2, some "pending", "under_consideration"⟩ : StateRollup) ∈
      policies_map_states [pCAenacted, pCApending, pTXpending] := by
    rw [h.2]
    exact List.mem_cons_self _ _
  have h2 := ((h.1 [pCAenacted, pCApending, pTXpending]).2.2.2
    ⟨some "CA", 2, some "pending", "under_consideration"⟩ hmem).2 (some "enacted")
  exact ⟨hmem, h2⟩

/-- Sample funding program. -/
def fSample : FundingProgram :=
  { id := 1, program_name := "SMART Grants", agency := "USDOT",
    funding_type := some "grant", total_funding := some "$100,000,000",
    award_range := none, application_deadline := some ⟨2024, 7, 12⟩,
    date_enacted := none, date_closed := none, eligibility := none,
    description := none, av_relevance := none, status := some "open",
    source_url := none, created_at := none, updated_at := none }

/-- Sample resource. -/
def rSample : Resource :=
  { id := 1, title := "AV Policy Primer", author_org := "Brookings",
    resource_type := some "report", publication_date := some ⟨2023, 2, 3⟩,
    tags := none, topic_area := none, summary := none, url := none,
    created_at := none, updated_at := none }

/-- Sample curbside regulation. -/
def cSample : CurbsideRegulation :=
  { id := 1, city := "Seattle", state := "Washington", state_code := some "WA",
    latitude := none, longitude := none, regulation_type := some "loading zone",
    description := none, applies_to := none, date_adopted := none,
    status := some "active", source_url := none, created_at := none,
    updated_at := none }

/-- Sample news article. -/
def nSample : NewsArticle :=
  { id := 1, headline := "Robotaxis expand", source_org := "The Verge",
    publication_date := ⟨2024, 1, 5⟩, summary := none, url := none,
    category := some "industry", created_at := none, updated_at := none }

theorem rowsToCsv_cons (r : List (String × PyVal))
    (rest : List (List (String × PyVal))) :
    rowsToCsv (r :: rest) =
      csvLine ((r.map Prod.fst).map csvCell) ++ "\r\n" ++
        String.join ((r :: rest).map (fun row =>
          csvLine ((row.map (fun kv => pyValCell kv.2)).map csvCell) ++ "\r\n")) := rfl

theorem export_policies_header (l : List Policy) (hne : l ≠ []) :
    firstLineChars (export_policies_rows l) =
      ("id,jurisdiction,state_code,policy_type,title,vehicle_class,date_enacted,status,summary,source_url,created_at,updated_at").data := by
  rcases List.exists_cons_of_ne_nil hne with ⟨p, t, rfl⟩
  unfold export_policies_rows
  rw [List.map_cons, rowsToCsv_cons]
  rw [show (Policy.toDict p).map Prod.fst =
    ["id", "jurisdiction", "state_code", "policy_type", "title", "vehicle_class",
     "date_enacted", "status", "summary", "source_url", "created_at", "updated_at"]
    from by simp [Policy.toDict]]
  rw [show csvLine ((["id", "jurisdiction", "state_code", "policy_type", "title",
      "vehicle_class", "date_enacted", "status", "summary", "source_url",
      "created_at", "updated_at"] : List String).map csvCell) =
    "id,jurisdiction,state_code,policy_type,title,vehicle_class,date_enacted,status,summary,source_url,created_at,updated_at"
    from by decide]
  exact firstLineChars_of_header _ _ (by decide)

theorem export_deployments_header (l : List Deployment) (hne : l ≠ []) :
    firstLineChars (export_deployments_rows l) =
      ("id,operator,program_name,city,state,state_code,latitude,longitude,vehicle_type,operational_domain,status,start_date,description,source_url,created_at,updated_at").data := by
  rcases List.exists_cons_of_ne_nil hne with ⟨p, t, rfl⟩
  unfold export_deployments_rows
  rw [List.map_cons, rowsToCsv_cons]
  rw [show (Deployment.toDict p).map Prod.fst =
    ["id", "operator", "program_name", "city", "state", "state_code", "latitude",
     "longitude", "vehicle_type", "operational_domain", "status", "start_date",
     "description", "source_url", "created_at", "updated_at"]
    from by simp [Deployment.toDict]]
  rw [show csvLine ((["id", "operator", "program_name", "city", "state",
      "state_code", "latitude", "longitude", "vehicle_type", "operational_domain",
      "status", "start_date", "description", "source_url", "created_at",
      "updated_at"] : List String).map csvCell) =
    "id,operator,program_name,city,state,state_code,latitude,longitude,vehicle_type,operational_domain,status,start_date,description,source_url,created_at,updated_at"
    from by decide]
  exact firstLineChars_of_header _ _ (by decide)

theorem export_funding_header (l : List FundingProgram) (hne : l ≠ []) :
    firstLineChars (export_funding_rows l) =
      ("id,program_name,agency,funding_type,total_funding,award_range,application_deadline,date_enacted,date_closed,eligibility,description,av_relevance,status,source_url,created_at,updated_at").data := by
  rcases List.exists_cons_of_ne_nil hne with ⟨p, t, rfl⟩
  unfold export_funding_rows
  rw [List.map_cons, rowsToCsv_cons]
  rw [show (FundingProgram.toDict p).map Prod.fst =
    ["id", "program_name", "agency", "funding_type", "total_funding",
     "award_range", "application_deadline", "date_enacted", "date_closed",
     "eligibility", "description", "av_relevance", "status", "source_url",
     "created_at", "updated_at"]
    from by simp [FundingProgram.toDict]]
  rw [show csvLine ((["id", "program_name", "agency", "funding_type",
      "total_funding", "award_range", "application_deadline", "date_enacted",
      "date_closed", "eligibility", "description", "av_relevance", "status",
      "source_url", "created_at", "updated_at"] : List String).map csvCell) =
    "id,program_name,agency,funding_type,total_funding,award_range,application_deadline,date_enacted,date_closed,eligibility,description,av_relevance,status,source_url,created_at,updated_at"
    from by decide]
  exact firstLineChars_of_header _ _ (by decide)

theorem export_safety_header (l : List SafetyIncident) (hne : l ≠ []) :
    firstLineChars (export_safety_rows l) =
      ("id,report_id,date,manufacturer,vehicle_model,city,state,state_code,latitude,longitude,incident_type,severity,ads_engaged,description,source,source_url,created_at,updated_at").data := by
  rcases List.exists_cons_of_ne_nil hne with ⟨p, t, rfl⟩
  unfold export_safety_rows
  rw [List.map_cons, rowsToCsv_cons]
  rw [show (SafetyIncident.toDict p).map Prod.fst =
    ["id", "report_id", "date", "manufacturer", "vehicle_model", "city", "state",
     "state_code", "latitude", "longitude", "incident_type", "severity",
     "ads_engaged", "description", "source", "source_url", "created_at",
     "updated_at"]
    from by simp [SafetyIncident.toDict]]
  rw [show csvLine ((["id", "report_id", "date", "manufacturer", "vehicle_model",
      "city", "state", "state_code", "latitude", "longitude", "incident_type",
      "severity", "ads_engaged", "description", "source", "source_url",
      "created_at", "updated_at"] : List String).map csvCell) =
    "id,report_id,date,manufacturer,vehicle_model,city,state,state_code,latitude,longitude,incident_type,severity,ads_engaged,description,source,source_url,created_at,updated_at"
    from by decide]
  exact firstLineChars_of_header _ _ (by decide)

theorem export_resources_header (l : List Resource) (hne : l ≠ []) :
    firstLineChars (export_resources_rows l) =
      ("id,title,author_org,resource_type,publication_date,tags,topic_area,summary,url,created_at,updated_at").data := by
  rcases List.exists_cons_of_ne_nil hne with ⟨p, t, rfl⟩
  unfold export_resources_rows
  rw [List.map_cons, rowsToCsv_cons]
  rw [show (Resource.toDict p).map Prod.fst =
    ["id", "title", "author_org", "resource_type", "publication_date", "tags",
     "topic_area", "summary", "url", "created_at", "updated_at"]
    from by simp [Resource.toDict]]
  rw [show csvLine ((["id", "title", "author_org", "resource_type",
      "publication_date", "tags", "topic_area", "summary", "url", "created_at",
      "updated_at"] : List String).map csvCell) =
    "id,title,author_org,resource_type,publication_date,tags,topic_area,summary,url,created_at,updated_at"
    from by decide]
  exact firstLineChars_of_header _ _ (by decide)

theorem export_curbside_header (l : List CurbsideRegulation) (hne : l ≠ []) :
    firstLineChars (export_curbside_rows l) =
      ("id,city,state,state_code,latitude,longitude,regulation_type,description,applies_to,date_adopted,status,source_url,created_at,updated_at").data := by
  rcases List.exists_cons_of_ne_nil hne with ⟨p, t, rfl⟩
  unfold export_curbside_rows
  rw [List.map_cons, rowsToCsv_cons]
  rw [show (CurbsideRegulation.toDict p).map Prod.fst =
    ["id", "city", "state", "state_code", "latitude", "longitude",
     "regulation_type", "description", "applies_to", "date_adopted", "status",
     "source_url", "created_at", "updated_at"]
    from by simp [CurbsideRegulation.toDict]]
  rw [show csvLine ((["id", "city", "state", "state_code", "latitude",
      "longitude", "regulation_type", "description", "applies_to",
      "date_adopted", "status", "source_url", "created_at", "updated_at"] :
      List String).map csvCell) =
    "id,city,state,state_code,latitude,longitude,regulation_type,description,applies_to,date_adopted,status,source_url,created_at,updated_at"
    from by decide]
  exact firstLineChars_of_header _ _ (by decide)

theorem export_news_header (l : List NewsArticle) (hne : l ≠ []) :
    firstLineChars (export_news_rows l) =
      ("id,headline,source_org,publication_date,summary,url,category,created_at,updated_at").data := by
  rcases List.exists_cons_of_ne_nil hne with ⟨p, t, rfl⟩
  unfold export_news_rows
  rw [List.map_cons, rowsToCsv_cons]
  rw [show (NewsArticle.toDict p).map Prod.fst =
    ["id", "headline", "source_org", "publication_date", "summary", "url",
     "category", "created_at", "updated_at"]
    from by simp [NewsArticle.toDict]]
  rw [show csvLine ((["id", "headline", "source_org", "publication_date",
      "summary", "url", "category", "created_at", "updated_at"] :
      List String).map csvCell) =
    "id,headline,source_org,publication_date,summary,url,category,created_at,updated_at"
    from by decide]
  exact firstLineChars_of_header _ _ (by decide)

/-- C6: for every entity kind, serialising a non-empty filtered record set
yields a CSV whose header row is exactly the entity's column names in
table-declaration order; date and timestamp values are rendered as ISO-8601
strings (`YYYY-MM-DD` / `YYYY-MM-DDTHH:MM:SS`, empty cell for null); and an
empty record set yields an empty body with no header row and no data rows. -/
theorem C6_csv_export :
    (export_policies_rows [] = "" ∧ ∀ l : List Policy, l ≠ [] →
      firstLineChars (export_policies_rows l) =
        ("id,jurisdiction,state_code,policy_type,title,vehicle_class,date_enacted,status,summary,source_url,created_at,updated_at").data) ∧
    (export_deployments_rows [] = "" ∧ ∀ l : List Deployment, l ≠ [] →
      firstLineChars (export_deployments_rows l) =
        ("id,operator,program_name,city,state,state_code,latitude,longitude,vehicle_type,operational_domain,status,start_date,description,source_url,created_at,updated_at").data) ∧
    (export_funding_rows [] = "" ∧ ∀ l : List FundingProgram, l ≠ [] →
      firstLineChars (export_funding_rows l) =
        ("id,program_name,agency,funding_type,total_funding,award_range,application_deadline,date_enacted,date_closed,eligibility,description,av_relevance,status,source_url,created_at,updated_at").data) ∧
    (export_safety_rows [] = "" ∧ ∀ l : List SafetyIncident, l ≠ [] →
      firstLineChars (export_safety_rows l) =
        ("id,report_id,date,manufacturer,vehicle_model,city,state,state_code,latitude,longitude,incident_type,severity,ads_engaged,description,source,source_url,created_at,updated_at").data) ∧
    (export_resources_rows [] = "" ∧ ∀ l : List Resource, l ≠ [] →
      firstLineChars (export_resources_rows l) =
        ("id,title,author_org,resource_type,publication_date,tags,topic_area,summary,url,created_at,updated_at").data) ∧
    (export_curbside_rows [] = "" ∧ ∀ l : List CurbsideRegulation, l ≠ [] →
      firstLineChars (export_curbside_rows l) =
        ("id,city,state,state_code,latitude,longitude,regulation_type,description,applies_to,date_adopted,status,source_url,created_at,updated_at").data) ∧
    (export_news_rows [] = "" ∧ ∀ l : List NewsArticle, l ≠ [] →
      firstLineChars (export_news_rows l) =
        ("id,headline,source_org,publication_date,summary,url,category,created_at,updated_at").data) ∧
    (∀ od : Option PyDate, pyValCell (optDate od) =
      (match od with
       | none => ""
       | some d => pad4 d.year ++ "-" ++ pad2 d.month ++ "-" ++ pad2 d.day)) ∧
    (∀ od : Option PyDateTime, pyValCell (optDateTime od) =
      (match od with
       | none => ""
       | some d => pad4 d.year ++ "-" ++ pad2 d.month ++ "-" ++ pad2 d.day ++ "T" ++
           pad2 d.hour ++ ":" ++ pad2 d.minute ++ ":" ++ pad2 d.second)) ∧
    (∀ p : Policy, (Policy.toDict p).lookup "date_enacted" =
      some (optDate p.date_enacted)) ∧
    (∀ d : Deployment, (Deployment.toDict d).lookup "start_date" =
      some (optDate d.start_date)) ∧
    (∀ f : FundingProgram, (FundingProgram.toDict f).lookup "application_deadline" =
      some (optDate f.application_deadline)) ∧
    (∀ i : SafetyIncident, (SafetyIncident.toDict i).lookup "date" =
      some (optDate i.date)) ∧
    (∀ r : Resource, (Resource.toDict r).lookup "publication_date" =
      some (optDate r.publication_date)) ∧
    (∀ c : CurbsideRegulation, (CurbsideRegulation.toDict c).lookup "date_adopted" =
      some (optDate c.date_adopted)) ∧
    (∀ a : NewsArticle, (NewsArticle.toDict a).lookup "publication_date" =
      some (optDate (some a.publication_date))) ∧
    (∀ p : Policy, (Policy.toDict p).lookup "created_at" =
      some (optDateTime p.created_at)) := by
  refine ⟨⟨rfl, export_policies_header⟩, ⟨rfl, export_deployments_header⟩,
    ⟨rfl, export_funding_header⟩, ⟨rfl, export_safety_header⟩,
    ⟨rfl, export_resources_header⟩, ⟨rfl, export_curbside_header⟩,
    ⟨rfl, export_news_header⟩, ?_, ?_, ?_, ?_, ?_, ?_, ?_, ?_, ?_, ?_⟩
  · intro od
    cases od <;> rfl
  · intro od
    cases od <;> rfl
  · intro p
    rfl
  · intro d
    rfl
  · intro f
    rfl
  · intro i
    rfl
  · intro r
    rfl
  · intro c
    rfl
  · intro a
    rfl
  · intro p
    rfl

/-- C6 witness: the export theorem applied to concrete one-record stores of
each entity kind (and to the empty policy store). -/
theorem C6_witness :
    firstLineChars (export_policies_rows [pCAenacted]) =
      ("id,jurisdiction,state_code,policy_type,title,vehicle_class,date_enacted,status,summary,source_url,created_at,updated_at").data ∧
    firstLineChars (export_deployments_rows [dNoCoords]) =
      ("id,operator,program_name,city,state,state_code,latitude,longitude,vehicle_type,operational_domain,status,start_date,description,source_url,created_at,updated_at").data ∧
    firstLineChars (export_funding_rows [fSample]) =
      ("id,program_name,agency,funding_type,total_funding,award_range,application_deadline,date_enacted,date_closed,eligibility,description,av_relevance,status,source_url,created_at,updated_at").data ∧
    firstLineChars (export_safety_rows [iLocated]) =
      ("id,report_id,date,manufacturer,vehicle_model,city,state,state_code,latitude,longitude,incident_type,severity,ads_engaged,description,source,source_url,created_at,updated_at").data ∧
    firstLineChars (export_resources_rows [rSample]) =
      ("id,title,author_org,resource_type,publication_date,tags,topic_area,summary,url,created_at,updated_at").data ∧
    firstLineChars (export_curbside_rows [cSample]) =
      ("id,city,state,state_code,latitude,longitude,regulation_type,description,applies_to,date_adopted,status,source_url,created_at,updated_at").data ∧
    firstLineChars (export_news_rows [nSample]) =
      ("id,headline,source_org,publication_date,summary,url,category,created_at,updated_at").data ∧
    (NewsArticle.toDict nSample).lookup "publication_date" =
      some (optDate (some nSample.publication_date)) := by
  have h := C6_csv_export
  exact ⟨h.1.2 [pCAenacted] (List.cons_ne_nil _ _),
    h.2.1.2 [dNoCoords] (List.cons_ne_nil _ _),
    h.2.2.1.2 [fSample] (List.cons_ne_nil _ _),
    h.2.2.2.1.2 [iLocated] (List.cons_ne_nil _ _),
    h.2.2.2.2.1.2 [rSample] (List.cons_ne_nil _ _),
    h.2.2.2.2.2.1.2 [cSample] (List.cons_ne_nil _ _),
    h.2.2.2.2.2.2.1.2 [nSample] (List.cons_ne_nil _ _),
    h.2.2.2.2.2.2.2.2.2.2.2.2.2.2.2.1 nSample⟩
